import Mathlib

/-!
# Verification of the Nexus AI orchestrator core

A shallow embedding of the orchestration core of the repository
(state normalization, intent classification, SQL validation and agent,
graph routing with approval/retry sub-protocols, quota-aware LLM router,
tenant configuration, and document registration), together with theorems
settling the frozen specification claims.

The shared state is a Python dict; we model Python values with the
inductive `PyVal` and dicts as insertion-ordered association lists.
-/

set_option maxRecDepth 100000

namespace Nexus

/-- Model of a Python value as it occurs in the orchestrator state:
`None`, booleans, integers, floats (modelled as rationals), strings,
lists and string-keyed dicts. -/
inductive PyVal where
  | none : PyVal
  | bool (b : Bool) : PyVal
  | int (n : Int) : PyVal
  | rat (q : ℚ) : PyVal
  | str (s : String) : PyVal
  | list (xs : List PyVal) : PyVal
  | dict (kvs : List (String × PyVal)) : PyVal

/-- A Python dict with string keys: an insertion-ordered association list. -/
abbrev Dict := List (String × PyVal)

/-- `d[k]` lookup returning the first binding, like a Python dict
(which cannot hold duplicate keys; extra entries are tolerated by the model). -/
def dlookup (d : Dict) (k : String) : Option PyVal :=
  match d with
  | [] => Option.none
  | (k', v) :: rest => if k' = k then some v else dlookup rest k

/-- `d.get(k, dflt)`. -/
def dgetD (d : Dict) (k : String) (dflt : PyVal) : PyVal :=
  (dlookup d k).getD dflt

/-- Replace the value of every binding of `k` (a Python dict has at most one). -/
def dupdate : Dict → String → PyVal → Dict
  | [], _, _ => []
  | (k', w) :: rest, k, v =>
    (if k' = k then (k, v) else (k', w)) :: dupdate rest k v

/-- `d[k] = v`: update the binding in place if the key exists
(preserving insertion order), else append. -/
def dset (d : Dict) (k : String) (v : PyVal) : Dict :=
  if (dlookup d k).isSome then dupdate d k v else d ++ [(k, v)]

/-- `d.setdefault(k, v)`. -/
def dsetdefault (d : Dict) (k : String) (v : PyVal) : Dict :=
  if (dlookup d k).isSome then d else d ++ [(k, v)]

/-- Python truthiness `bool(v)`. -/
def truthy : PyVal → Bool
  | .none => false
  | .bool b => b
  | .int n => n ≠ 0
  | .rat q => q ≠ 0
  | .str s => s ≠ ""
  | .list xs => ¬ xs.isEmpty
  | .dict kvs => ¬ kvs.isEmpty

/-- Is the value a Python list? -/
def PyVal.isList : PyVal → Bool
  | .list _ => true
  | _ => false

/-- Is the value a Python dict? -/
def PyVal.isDict : PyVal → Bool
  | .dict _ => true
  | _ => false

/-- Extract an `Int`, as used where the source arithmetic requires one
(`retry_count`, `max_retries`, `conversation_turn`); a Python `bool` is
an `int` subtype. -/
def PyVal.asInt : PyVal → Option Int
  | .int n => some n
  | .bool b => some (if b then 1 else 0)
  | _ => Option.none

/-- Numeric view of a Python value: `bool` and `int` promote to float
for comparisons (`1 == 1.0 == True`). -/
def PyVal.asNum : PyVal → Option ℚ
  | .bool b => some (if b then 1 else 0)
  | .int n => some (n : ℚ)
  | .rat q => some q
  | _ => Option.none

mutual
/-- Python `==` on modelled values: numeric cross-type equality, strings
by value, lists elementwise, dicts by key set and values (our dicts carry
no duplicate keys in any reachable state), `False` across other types. -/
def pyEq : PyVal → PyVal → Bool
  | .none, .none => true
  | .bool a, b => pyNumEq (if a then 1 else 0) b
  | .int a, b => pyNumEq (a : ℚ) b
  | .rat a, b => pyNumEq a b
  | a, .bool b => pyNumEq (if b then 1 else 0) a
  | a, .int b => pyNumEq (b : ℚ) a
  | a, .rat b => pyNumEq b a
  | .str s, .str t => s = t
  | .list xs, .list ys => pyEqList xs ys
  | .dict xs, .dict ys => xs.length = ys.length && pyEqDict xs ys
  | _, _ => false

/-- One side numeric: equal iff the other side is numeric with the same value. -/
def pyNumEq (q : ℚ) : PyVal → Bool
  | .bool b => q = (if b then 1 else 0)
  | .int n => q = (n : ℚ)
  | .rat r => q = r
  | _ => false

/-- Python `==` on lists, elementwise. -/
def pyEqList : List PyVal → List PyVal → Bool
  | [], [] => true
  | x :: xs, y :: ys => pyEq x y && pyEqList xs ys
  | _, _ => false

/-- Python `==` on dicts: every left binding matched by value on the right. -/
def pyEqDict : List (String × PyVal) → List (String × PyVal) → Bool
  | [], _ => true
  | (k, v) :: xs, ys =>
    (match dlookup ys k with
     | some w => pyEq v w
     | Option.none => false)
    && pyEqDict xs ys
end

/-- Python `x == "lit"` where the literal is a string. -/
def pyEqStr : PyVal → String → Bool
  | .str s, t => s = t
  | _, _ => false

/-! ## `src/state/normalize.py` -/

/-- One normalization action of `normalize_state`:
a plain `setdefault`, or a `setdefault` to `[]` / `{}` followed by the
`isinstance` container check that resets a wrongly-typed value. -/
inductive FieldFix where
  | setdflt (k : String) (v : PyVal) : FieldFix
  | setdfltList (k : String) : FieldFix
  | setdefDict (k : String) : FieldFix

/-- The key a `FieldFix` establishes. -/
def FieldFix.key : FieldFix → String
  | .setdflt k _ => k
  | .setdfltList k => k
  | .setdefDict k => k

/-- Is the action a plain `setdefault` (no container type check)? -/
def FieldFix.isPlain : FieldFix → Bool
  | .setdflt _ _ => true
  | _ => false

/-- Is the action a dict-resetting fix? -/
def FieldFix.isDictFix : FieldFix → Bool
  | .setdefDict _ => true
  | _ => false

/-- Run one normalization action on the dict. -/
def applyFix (d : Dict) : FieldFix → Dict
  | .setdflt k v => dsetdefault d k v
  | .setdfltList k =>
    let d1 := dsetdefault d k (.list [])
    match dlookup d1 k with
    | some (.list _) => d1
    | _ => dset d1 k (.list [])
  | .setdefDict k =>
    let d1 := dsetdefault d k (.dict [])
    match dlookup d1 k with
    | some (.dict _) => d1
    | _ => dset d1 k (.dict [])

/-- The normalization actions of `normalize_state` after the
identity block (`tenant_id` / `user_id` / `is_guest`), in source order. -/
def normSpecs : List FieldFix :=
  [ .setdflt "session_id" (.str ""),
    .setdflt "user_query" (.str ""),
    .setdflt "intent" (.str "unknown"),
    .setdflt "intent_confidence" (.rat 0),
    .setdfltList "messages",
    .setdflt "conversation_turn" (.int 0),
    .setdfltList "chat_history",
    .setdflt "memory_loaded_count" (.int 0),
    .setdfltList "uploaded_docs",
    .setdflt "db_connection" .none,
    .setdflt "db_schema" .none,
    .setdflt "workspace_id" (.str "default"),
    .setdflt "uploaded_doc_ids" (.list []),
    .setdfltList "workspace_documents",
    .setdflt "vector_index_path" .none,
    .setdflt "retrieved_context" .none,
    .setdflt "generated_sql" .none,
    .setdflt "sql_validation_result" .none,
    .setdflt "code_to_execute" .none,
    .setdflt "execution_result" .none,
    .setdefDict "tool_outputs",
    .setdflt "research_results" .none,
    .setdfltList "errors",
    .setdflt "retry_count" (.int 0),
    .setdflt "max_retries" (.int 3),
    .setdflt "approved" (.bool false),
    .setdflt "approval_required" (.bool false),
    .setdflt "approval_reason" .none,
    .setdflt "execution_status" (.str "pending"),
    .setdflt "confidence_score" (.rat 0),
    .setdflt "risk_level" .none,
    .setdflt "next_node" .none,
    .setdflt "should_continue" (.bool false),
    .setdflt "requires_human_input" (.bool false),
    .setdflt "final_answer" .none,
    .setdefDict "metadata",
    .setdflt "model_used" .none,
    .setdflt "fallback_reason" .none ]

/-- The identity block of `normalize_state`: `tenant_id` and `user_id`
defaults, then `normalized["is_guest"] = normalized.get("is_guest",
normalized["user_id"] == "guest")`. -/
def idFix (state : Dict) : Dict :=
  let d := dsetdefault state "tenant_id" (.str "default")
  let d := dsetdefault d "user_id" (.str "guest")
  dset d "is_guest"
    (dgetD d "is_guest" (.bool (pyEqStr (dgetD d "user_id" .none) "guest")))

/-- `normalize_state` (src/state/normalize.py).  Starts from a copy of the
input dict, sets the identity fields, then installs defaults for every
remaining documented field.  Note `uploaded_doc_ids` only receives a
`setdefault` in the source — there is no `isinstance` list check for it. -/
def normalize_state (state : Dict) : Dict :=
  normSpecs.foldl applyFix (idFix state)

/-- The invariant a single normalization action establishes at its key. -/
def Established (d : Dict) : FieldFix → Prop
  | .setdflt k _ => (dlookup d k).isSome = true
  | .setdfltList k => ∃ xs, dlookup d k = some (.list xs)
  | .setdefDict k => ∃ kvs, dlookup d k = some (.dict kvs)

/-- Every binding of `k` in the association list carries the value `v`
(used to show a Python-dict assignment is a no-op the second time). -/
def EntriesAll (d : Dict) (k : String) (v : PyVal) : Prop :=
  ∀ p ∈ d, p.1 = k → p.2 = v

/-- The full key set of the `OrchestratorState` TypedDict (src/state/state.py):
the three identity-block keys plus every key defaulted by `normalize_state`. -/
def documentedKeys : List String :=
  ["tenant_id", "user_id", "is_guest"] ++ normSpecs.map FieldFix.key

/-- `ensure_intent` (src/state/normalize.py). -/
def ensure_intent (state : Dict) : Dict :=
  match dlookup state "intent" with
  | Option.none =>
    dset (dset state "intent" (.str "unknown")) "intent_confidence" (.rat 0)
  | some .none =>
    dset (dset state "intent" (.str "unknown")) "intent_confidence" (.rat 0)
  | some _ => state

/-- `ensure_metadata` (src/state/normalize.py). -/
def ensure_metadata (state : Dict) : Dict :=
  match dlookup state "metadata" with
  | some (.dict _) => state
  | _ => dset state "metadata" (.dict [])

/-- `ensure_errors` (src/state/normalize.py). -/
def ensure_errors (state : Dict) : Dict :=
  match dlookup state "errors" with
  | some (.list _) => state
  | _ => dset state "errors" (.list [])

/-! ## A small matcher for the regular expressions of `SQLValidator`
(src/agents/sql_agent.py).  The fragments needed are literals, `\b`-delimited
words, `\s+`, `\s*` and `.*` (`.` not matching a newline); `re.search`
semantics (match anywhere). -/

/-- Python regex `\w` on the ASCII SQL text. -/
def isWordChar (c : Char) : Bool := c.isAlphanum || c = '_'

/-- Python regex `\s`. -/
def isSpaceChar (c : Char) : Bool :=
  c = ' ' || c = '\t' || c = '\n' || c = '\r' || c = '\x0b' || c = '\x0c'

/-- Regex fragments used by the validator patterns. -/
inductive Pat where
  | lit (s : List Char) : Pat
  | word (s : List Char) : Pat
  | ws1 : Pat
  | ws0 : Pat
  | anyNoNl : Pat

/-- Strip a literal character sequence from the front. -/
def stripLit : List Char → List Char → Option (List Char)
  | [], s => some s
  | _ :: _, [] => Option.none
  | c :: cs, d :: ds => if c = d then stripLit cs ds else Option.none

/-- The character preceding the remainder after consuming `l` (for `\b`). -/
def lastCharOf (l : List Char) (prev : Option Char) : Option Char :=
  match l.getLast? with
  | some c => some c
  | Option.none => prev

/-- `\b` before a word character: start of text or a non-word character. -/
def boundaryBefore : Option Char → Bool
  | Option.none => true
  | some c => !isWordChar c

/-- `\b` after a word character: end of text or a non-word character. -/
def boundaryAfter : List Char → Bool
  | [] => true
  | c :: _ => !isWordChar c

/-- All ways to consume at least one `\s` character. -/
def wsSplits : List Char → List (Option Char × List Char)
  | [] => []
  | c :: rest => if isSpaceChar c then (some c, rest) :: wsSplits rest else []

/-- All ways to consume zero or more non-newline characters (`.*`). -/
def nnlSplits (prev : Option Char) : List Char → List (Option Char × List Char)
  | [] => [(prev, [])]
  | c :: rest =>
    (prev, c :: rest) :: (if c = '\n' then [] else nnlSplits (some c) rest)

/-- Do the fragments match a prefix of `s`, given the previous character? -/
def matchHere : List Pat → Option Char → List Char → Bool
  | [], _, _ => true
  | .lit l :: ps, prev, s =>
    match stripLit l s with
    | some rest => matchHere ps (lastCharOf l prev) rest
    | Option.none => false
  | .word w :: ps, prev, s =>
    boundaryBefore prev &&
    (match stripLit w s with
     | some rest => boundaryAfter rest && matchHere ps (lastCharOf w prev) rest
     | Option.none => false)
  | .ws1 :: ps, _prev, s =>
    (wsSplits s).any (fun pr => matchHere ps pr.1 pr.2)
  | .ws0 :: ps, prev, s =>
    matchHere ps prev s || (wsSplits s).any (fun pr => matchHere ps pr.1 pr.2)
  | .anyNoNl :: ps, prev, s =>
    (nnlSplits prev s).any (fun pr => matchHere ps pr.1 pr.2)

/-- `re.search`: does the pattern match at some position? -/
def searchFrom (ps : List Pat) : Option Char → List Char → Bool
  | prev, s =>
    matchHere ps prev s ||
      (match s with
       | [] => false
       | c :: rest => searchFrom ps (some c) rest)

/-- `re.search(pattern, text)` as a Boolean. -/
def reSearch (ps : List Pat) (text : String) : Bool :=
  searchFrom ps Option.none text.data

/-! ## `SQLValidator` (src/agents/sql_agent.py) -/

/-- `DANGEROUS_PATTERNS` with their descriptions. -/
def sqlDangerousPatterns : List (List Pat × String) :=
  [ ([.word "DROP".data, .ws1, .word "TABLE".data], "DROP TABLE operations"),
    ([.word "DELETE".data, .ws1, .word "FROM".data], "DELETE operations"),
    ([.word "TRUNCATE".data], "TRUNCATE operations"),
    ([.word "ALTER".data, .ws1, .word "TABLE".data], "ALTER TABLE operations"),
    ([.word "CREATE".data, .ws1, .word "TABLE".data], "CREATE TABLE operations"),
    ([.word "INSERT".data, .ws1, .word "INTO".data], "INSERT operations"),
    ([.word "UPDATE".data, .ws1, .anyNoNl, .ws1, .word "SET".data], "UPDATE operations"),
    ([.lit ";".data, .ws0, .lit "DROP".data], "Multiple statements with DROP"),
    ([.lit ";".data, .ws0, .lit "DELETE".data], "Multiple statements with DELETE"),
    ([.lit "--".data], "SQL comments (potential injection)"),
    ([.lit "/*".data, .anyNoNl, .lit "*/".data], "SQL block comments") ]

/-- `SAFE_PATTERNS` (read-only indicators). -/
def sqlSafePatterns : List (List Pat) :=
  [ [.word "SELECT".data], [.word "WITH".data], [.word "FROM".data],
    [.word "WHERE".data], [.word "GROUP".data, .ws1, .word "BY".data],
    [.word "ORDER".data, .ws1, .word "BY".data], [.word "HAVING".data],
    [.word "JOIN".data], [.word "LIMIT".data] ]

/-- The part of `SQLValidator.validate` delegated to the external `sqlparse`
library: either a parse-failure message, or the flattened values of the
tokens whose token type is exactly `Keyword` across the parsed statements.
(In `sqlparse`, DML keywords such as `SELECT`, `INSERT`, `DELETE` carry the
subtype `Keyword.DML`, which the source's `token.ttype is Keyword` identity
test does not match.) -/
structure AstInfo where
  parseError : Option String
  keywordTokens : List String

/-- `sqlparse` behaviour on plain `SELECT` statements: the parse succeeds and
no token has type exactly `Keyword` (`SELECT` is `Keyword.DML`, literals and
identifiers are not keywords). -/
def astPlainSelect : AstInfo := { parseError := Option.none, keywordTokens := [] }

/-- Python `str.upper()` on the ASCII SQL text. -/
def pyUpper (s : String) : String := String.mk (s.data.map Char.toUpper)

/-- Drop leading whitespace characters. -/
def dropLeadingWs : List Char → List Char
  | [] => []
  | c :: rest => if isSpaceChar c then dropLeadingWs rest else c :: rest

/-- Python `str.strip()`: whitespace removed from both ends. -/
def pyStrip (s : String) : String :=
  String.mk (dropLeadingWs (dropLeadingWs s.data.reverse).reverse)

/-- Occurrences of a character in a string (`str.count` for 1-char needle). -/
def countChar (s : String) (c : Char) : Nat := s.data.count c

/-- Result dict of `SQLValidator.validate`. -/
structure VResult where
  is_safe : Bool
  risk_level : String
  issues : List String
  requires_approval : Bool

/-- `SQLValidator.validate` (src/agents/sql_agent.py, lines 48-119):
pattern pass over the upper-cased text, AST pass over the `sqlparse`
tokens (`ast` argument), read-only check, multi-statement check
(`sql.count(';') > 1`), and the final verdict. -/
def SQLValidator_validate (ast : AstInfo) (sql : String) : VResult :=
  let sql_upper := pyStrip (pyUpper sql)
  let pass1 := sqlDangerousPatterns.foldl
    (fun (acc : List String × String) pd =>
      if reSearch pd.1 sql_upper then
        (acc.1 ++ ["Potentially dangerous: " ++ pd.2], "high")
      else acc)
    ([], "low")
  let pass2 :=
    match ast.parseError with
    | some e => (pass1.1 ++ ["SQL parsing warning: " ++ e], "medium")
    | Option.none =>
      ast.keywordTokens.foldl
        (fun (acc : List String × String) t =>
          let u := pyUpper t
          if u ∈ ["DELETE", "DROP", "UPDATE", "INSERT", "ALTER", "TRUNCATE", "CREATE"] then
            if ("Dangerous operation: " ++ u) ∉ acc.1 then
              (acc.1 ++ ["Dangerous operation detected via AST: " ++ u], "high")
            else acc
          else acc)
        pass1
  let has_safe_pattern := sqlSafePatterns.any (fun p => reSearch p sql_upper)
  let has_safe_pattern :=
    match ast.parseError with
    | some _ => has_safe_pattern
    | Option.none =>
      has_safe_pattern || ast.keywordTokens.any (fun t => pyUpper t = "SELECT")
  let pass3 :=
    if !has_safe_pattern && pass2.1.isEmpty then
      (pass2.1 ++ ["Query doesn\x27t appear to be a SELECT query"], "medium")
    else pass2
  let pass4 :=
    if countChar sql ';' > 1 then
      (pass3.1 ++ ["Multiple statements detected"], "high")
    else pass3
  { is_safe := pass4.1.isEmpty && has_safe_pattern,
    risk_level := pass4.2,
    issues := pass4.1,
    requires_approval := (["medium", "high"] : List String).contains pass4.2 }

/-- Split a character list on semicolons. -/
def splitSemis : List Char → List (List Char)
  | [] => [[]]
  | c :: rest =>
    if c = ';' then [] :: splitSemis rest
    else
      match splitSemis rest with
      | seg :: segs => (c :: seg) :: segs
      | [] => [[c]]

/-- Spec-side notion for C7 only: a "statement" is a semicolon-separated
segment of the SQL text containing a non-whitespace character (matching how
`sqlparse.parse` splits statements on plain input). -/
def specStatementCount (sql : String) : Nat :=
  ((splitSemis sql.data).filter (fun seg => seg.any (fun c => !isSpaceChar c))).length

/-! ## `SQLAgent` (src/agents/sql_agent.py) and the graph sub-protocol nodes
(src/orchestrator/graph.py) around it -/

/-- Python `str()` on modelled values, to the extent the orchestrator
interpolates them into f-strings (identifiers and artifacts are strings or
simple scalars in every reachable state; containers never reach a format
string in the paths verified here). -/
def pyStr : PyVal → String
  | .none => "None"
  | .bool b => if b then "True" else "False"
  | .int n => toString n
  | .rat q => toString q
  | .str s => s
  | .list _ => "[...]"
  | .dict _ => "\x7b...\x7d"

/-- Python `a < b` on the numeric counters (`retry_count`, `max_retries`);
comparing non-numbers raises in Python and is unreachable after
normalization, modelled as `false`. -/
def pyLtNum (a b : PyVal) : Bool :=
  match a.asNum, b.asNum with
  | some x, some y => decide (x < y)
  | _, _ => false

/-- `state["messages"].append(msg)`.  After `normalize_state` the
`messages` field is always a list (proved above), so the fallback branch is
unreachable in every state the graph passes to an agent. -/
def appendMessage (st : Dict) (msg : PyVal) : Dict :=
  match dlookup st "messages" with
  | some (.list xs) => dset st "messages" (.list (xs ++ [msg]))
  | _ => st

/-- `SQLAgent.execute_sql` (mock execution): refuses without a
`db_connection`, else reports the mock execution of the query text. -/
def execute_sql (state : Dict) (sql : PyVal) : String :=
  if !truthy (dgetD state "db_connection" .none) then
    "Error: No database connection configured."
  else
    "[Mock] Executed query: " ++ pyStr sql
      ++ "\n[In production, this would execute against the database]"

/-- The invariant enforcement at `SQLAgent.execute` entry:
`normalize_state`, then `ensure_metadata` / `ensure_errors` /
`ensure_intent`. -/
def agentEntry (state : Dict) : Dict :=
  ensure_intent (ensure_errors (ensure_metadata (normalize_state state)))

/-- The resume-from-approval branch of `SQLAgent.execute`: skip generation
and execute the stored `generated_sql` directly, marking the assistant
message as an approved execution. -/
def sqlApprovedPath (st : Dict) : Dict :=
  let sql := dgetD st "generated_sql" .none
  let st := dset st "execution_status" (.str "executing")
  let result := execute_sql st sql
  let st := dset st "execution_result" (.str result)
  let st := dset st "execution_status" (.str "completed")
  let fa := "Query executed successfully (Approved):\n\n```sql\n" ++ pyStr sql
    ++ "\n```\n\nResults:\n" ++ result
  let st := dset st "final_answer" (.str fa)
  let st := dset st "confidence_score" (.rat (19 / 20))
  appendMessage st (.dict
    [("role", .str "assistant"), ("content", .str fa),
     ("metadata", .dict
       [("agent", .str "sql"), ("sql", sql), ("approved", .bool true)])])

/-- The generate-validate-execute branch of `SQLAgent.execute`, with the
validation verdict of the generated text as an argument. -/
def sqlGeneratedPathWith (validation : VResult) (st : Dict) (sql : String) : Dict :=
  let st := dset st "generated_sql" (.str sql)
  let st := dset st "sql_validation_result" (.dict
    [("is_safe", .bool validation.is_safe),
     ("risk_level", .str validation.risk_level),
     ("issues", .list (validation.issues.map PyVal.str)),
     ("requires_approval", .bool validation.requires_approval)])
  if validation.requires_approval then
    let st := dset st "approval_required" (.bool true)
    let st := dset st "approval_reason"
      (.str ("SQL validation issues: " ++ String.intercalate ", " validation.issues))
    let st := dset st "risk_level" (.str validation.risk_level)
    dset st "execution_status" (.str "requires_approval")
  else if truthy (dgetD st "approval_required" .none)
      && !truthy (dgetD st "approved" (.bool false)) then
    dset st "execution_status" (.str "pending")
  else
    let st := dset st "execution_status" (.str "executing")
    let result := execute_sql st (.str sql)
    let st := dset st "execution_result" (.str result)
    let st := dset st "execution_status" (.str "completed")
    let fa := "Query executed successfully:\n\n```sql\n" ++ sql
      ++ "\n```\n\nResults:\n" ++ result
    let st := dset st "final_answer" (.str fa)
    let st := dset st "confidence_score"
      (.rat (if validation.is_safe then 9 / 10 else 7 / 10))
    appendMessage st (.dict
      [("role", .str "assistant"), ("content", .str fa),
       ("metadata", .dict [("agent", .str "sql"), ("sql", .str sql)])])

/-- The generate-validate-execute branch of `SQLAgent.execute`:
`sql = self.generate_sql(state)` already happened (the `gen` argument of
`SQLAgent_execute`), then `validation = self.validate_sql(sql)` and the
branches on the verdict. -/
def sqlGeneratedPath (ast : AstInfo) (st : Dict) (sql : String) : Dict :=
  sqlGeneratedPathWith (SQLValidator_validate ast sql) st sql

/-- The `except` branch of `SQLAgent.execute`: append the error, and apply
the agent-internal retry policy against the *agent's own* `max_retries`
bound (constructed as 3 in `AIOrchestrator.__init__`). -/
def sqlExceptPath (agentMax : Nat) (st : Dict) (retry_count : PyVal) (e : String) : Dict :=
  let st :=
    match dlookup st "errors" with
    | some (.list _) => st
    | _ => dset st "errors" (.list [])
  let st :=
    match dlookup st "errors" with
    | some (.list xs) => dset st "errors" (.list (xs ++ [.str e]))
    | _ => st
  match retry_count.asInt with
  | some rc =>
    if rc < (agentMax : Int) then
      dset (dset (dset st "retry_count" (.int (rc + 1)))
        "execution_status" (.str "failed")) "should_continue" (.bool true)
    else
      let errs := match dlookup st "errors" with
        | some (.list xs) => xs
        | _ => []
      dset (dset st "execution_status" (.str "failed")) "final_answer"
        (.str ("Failed to generate or execute SQL after " ++ toString agentMax
          ++ " attempts. Errors: " ++ String.intercalate ", " (errs.map pyStr)))
  | Option.none => st

/-- `SQLAgent.execute` (src/agents/sql_agent.py, lines 259-349).
`gen` is the outcome of `generate_sql` (the LLM call): the produced SQL
text, or the exception it raised; `ast` is the `sqlparse` view of the
produced text.  The body mirrors the source: invariants at entry, the
approved-resume branch, otherwise generate → validate → branch, with the
`except` branch applying the retry policy. -/
def SQLAgent_execute (agentMax : Nat) (ast : AstInfo) (gen : Except String String)
    (state : Dict) : Dict :=
  let st := agentEntry state
  let retry_count := dgetD st "retry_count" (.int 0)
  if truthy (dgetD st "approved" .none) && truthy (dgetD st "generated_sql" .none) then
    sqlApprovedPath st
  else
    match gen with
    | .ok sql => sqlGeneratedPath ast st sql
    | .error e => sqlExceptPath agentMax st retry_count e

/-- `_route_after_agent` (src/orchestrator/graph.py, lines 396-401). -/
def route_after_agent (st : Dict) : String :=
  if truthy (dgetD st "approval_required" (.bool false))
      && !truthy (dgetD st "approved" (.bool false)) then
    "approval_gate"
  else if truthy (dgetD st "should_continue" (.bool false))
      && pyLtNum (dgetD st "retry_count" (.int 0)) (dgetD st "max_retries" (.int 3)) then
    "retry_handler"
  else "end"

/-- `_approval_gate_node` (src/orchestrator/graph.py, lines 360-369);
the source rebinds `state = normalize_state(state)` and then reads and
writes that normalized dict, written here without the intermediate name. -/
def approval_gate_node (st : Dict) : Dict :=
  if truthy (dgetD (normalize_state st) "approved" (.bool false)) then
    dset (dset (normalize_state st) "execution_status" (.str "approved"))
      "should_continue" (.bool true)
  else
    dset (dset (dset (normalize_state st) "execution_status" (.str "requires_approval"))
      "requires_human_input" (.bool true)) "should_continue" (.bool false)

/-- `_route_after_approval` (src/orchestrator/graph.py, lines 371-376). -/
def route_after_approval (st : Dict) : String :=
  if truthy (dgetD st "approved" (.bool false)) then
    if pyEqStr (dgetD st "intent" .none) "sql" then "sql_agent"
    else if pyEqStr (dgetD st "intent" .none) "code" then "code_agent"
    else "end"
  else "end"

/-- `_retry_handler_node` (src/orchestrator/graph.py, lines 378-387);
as with the gate, the normalized dict is written inline. -/
def retry_handler_node (st : Dict) : Dict :=
  if pyLtNum (dgetD (normalize_state st) "retry_count" (.int 0))
      (dgetD (normalize_state st) "max_retries" (.int 3)) then
    dset (normalize_state st) "should_continue" (.bool true)
  else
    dset (dset (normalize_state st) "should_continue" (.bool false))
      "execution_status" (.str "failed")

/-- `_route_after_retry` (src/orchestrator/graph.py, lines 389-394). -/
def route_after_retry (st : Dict) : String :=
  if truthy (dgetD st "should_continue" (.bool false)) then
    if pyEqStr (dgetD st "intent" .none) "sql" then "sql_agent"
    else if pyEqStr (dgetD st "intent" .none) "code" then "code_agent"
    else "end"
  else "end"

/-- One traversal of the graph starting at the `sql_agent` node (the
`_sql_node` wrapper normalizes, then runs the agent) through its
conditional edges: to `approval_gate` and on approval back to the handler,
to `retry_handler` and while under budget back to the handler, or to the
terminal `save_persistent_context` edge ("end"); `rec` continues the loop
and the counter counts entries into `retry_handler`. -/
def runSqlStep (agentMax : Nat) (ast : AstInfo) (gen : Except String String)
    (rec : Dict → Nat → Option (Dict × Nat)) (st : Dict) (retries : Nat) :
    Option (Dict × Nat) :=
  match route_after_agent (SQLAgent_execute agentMax ast gen (normalize_state st)) with
  | "approval_gate" =>
    if route_after_approval (approval_gate_node
        (SQLAgent_execute agentMax ast gen (normalize_state st))) = "sql_agent" then
      rec (approval_gate_node (SQLAgent_execute agentMax ast gen (normalize_state st))) retries
    else some (approval_gate_node (SQLAgent_execute agentMax ast gen (normalize_state st)), retries)
  | "retry_handler" =>
    if route_after_retry (retry_handler_node
        (SQLAgent_execute agentMax ast gen (normalize_state st))) = "sql_agent" then
      rec (retry_handler_node (SQLAgent_execute agentMax ast gen (normalize_state st))) (retries + 1)
    else some (retry_handler_node (SQLAgent_execute agentMax ast gen (normalize_state st)), retries + 1)
  | _ => some (SQLAgent_execute agentMax ast gen (normalize_state st), retries)

/-- Drive the compiled graph from entry into the `sql_agent` node until the
terminal `save_persistent_context` edge, counting router-driven retries.
`fuel` bounds the loop as LangGraph's recursion limit does; states with a
non-`sql` intent leave this sub-graph and are not modelled here. -/
def runSqlSubgraph (agentMax : Nat) (ast : AstInfo) (gen : Except String String) :
    Nat → Dict → Nat → Option (Dict × Nat)
  | 0, _, _ => Option.none
  | fuel + 1, st, retries =>
    runSqlStep agentMax ast gen (runSqlSubgraph agentMax ast gen fuel) st retries

/-- The length of the `errors` list of a state. -/
def errorsLength (st : Dict) : Nat :=
  match dlookup st "errors" with
  | some (.list xs) => xs.length
  | _ => 0

/-- The last message of the conversation, if any. -/
def lastMessage (st : Dict) : Option PyVal :=
  match dlookup st "messages" with
  | some (.list xs) => xs.getLast?
  | _ => Option.none

/-- The `approved` marker inside the last assistant message's metadata. -/
def lastMessageApprovedMark (st : Dict) : Option PyVal :=
  match lastMessage st with
  | some (.dict m) =>
    match dlookup m "metadata" with
    | some (.dict md) => dlookup md "approved"
    | _ => Option.none
  | _ => Option.none

/-- Entry state of the approval scenario, first run: a fresh run whose
query was classified `sql`, with a database connection configured. -/
def approvalFirstRunState : Dict :=
  [("user_query", .str "remove the users table"), ("intent", .str "sql"),
   ("db_connection", .str "sqlite:///demo.db")]

/-- Entry state of the approval scenario, resumed run: the caller re-enters
with `approved=true` and the previously generated artifact carried forward
in `generated_sql`, together with the pending `approval_required` flag from
the first run. -/
def approvalResumeState (sql : String) : Dict :=
  [("user_query", .str "remove the users table"), ("intent", .str "sql"),
   ("db_connection", .str "sqlite:///demo.db"), ("approved", .bool true),
   ("approval_required", .bool true), ("generated_sql", .str sql)]

/-- Entry state of the retry scenario for C3: a fresh run whose query was
classified `sql`, with the caller-seeded `max_retries` bound `M`. -/
def retryScenarioState (M : Nat) : Dict :=
  normalize_state
    [("user_query", .str "sum the orders"), ("intent", .str "sql"),
     ("max_retries", .int M)]

/-- Summary projection of a finished sql-subgraph run, for the retry claim:
execution status, final answer, number of accumulated errors, and the
number of router-driven retries. -/
def sqlRunSummary (r : Option (Dict × Nat)) :
    Option (Option PyVal × Option PyVal × Nat × Nat) :=
  r.map (fun p =>
    (dlookup p.1 "execution_status", dlookup p.1 "final_answer",
     errorsLength p.1, p.2))

/-! ## `src/config/tenant_config.py` -/

/-- `TenantTier`. -/
inductive TenantTier where
  | free : TenantTier
  | basic : TenantTier
  | pro : TenantTier
  | enterprise : TenantTier

/-- `TenantTier.value` (the enum's string value). -/
def TenantTier.value : TenantTier → String
  | .free => "free"
  | .basic => "basic"
  | .pro => "pro"
  | .enterprise => "enterprise"

/-- `TenantConfig` dataclass (after `__post_init__`, so `allowed_agents`
is always materialized). -/
structure TenantConfig where
  tenant_id : String
  tier : TenantTier
  max_documents : Nat
  max_query_length : Nat
  allowed_agents : List String
  llm_model : String
  enable_code_execution : Bool
  enable_sql_execution : Bool
  require_approval_for_risky_ops : Bool
  max_retries : Nat

/-- `__post_init__` defaulting of `allowed_agents` by tier. -/
def defaultAllowedAgents : TenantTier → List String
  | .free => ["chat", "rag"]
  | .basic => ["chat", "rag", "research"]
  | _ => ["chat", "rag", "research", "sql", "code"]

/-- `TenantConfig(tenant_id=...)` with every dataclass default. -/
def TenantConfig.mkDefault (tenant_id : String) : TenantConfig :=
  { tenant_id := tenant_id, tier := .free, max_documents := 10,
    max_query_length := 1000, allowed_agents := defaultAllowedAgents .free,
    llm_model := "gpt-4o-mini", enable_code_execution := false,
    enable_sql_execution := false, require_approval_for_risky_ops := true,
    max_retries := 3 }

/-- `TenantConfigManager._initialize_defaults`: the "default" tenant is PRO
with all agents and execution enabled. -/
def initialConfigs : List (String × TenantConfig) :=
  [("default",
    { tenant_id := "default", tier := .pro, max_documents := 10,
      max_query_length := 1000,
      allowed_agents := ["chat", "rag", "research", "sql", "code"],
      llm_model := "gpt-4o-mini", enable_code_execution := true,
      enable_sql_execution := true, require_approval_for_risky_ops := true,
      max_retries := 3 })]

/-- Python `str.lower()`. -/
def pyLower (s : String) : String := String.mk (s.data.map Char.toLower)

/-- `TenantConfigManager.get_config`: the stored config, or a fresh default
config for an unknown tenant. -/
def get_config (configs : List (String × TenantConfig)) (tenant_id : String) :
    TenantConfig :=
  match configs.find? (fun p => p.1 = tenant_id) with
  | some p => p.2
  | Option.none => TenantConfig.mkDefault tenant_id

/-- `TenantConfigManager.is_agent_allowed` (case-insensitive membership). -/
def is_agent_allowed (configs : List (String × TenantConfig))
    (tenant_id agent_name : String) : Bool :=
  ((get_config configs tenant_id).allowed_agents.map pyLower).contains (pyLower agent_name)

/-- `TenantConfigManager.validate_request`: query length, agent access, and
per-agent execution flags. -/
def validate_request (configs : List (String × TenantConfig))
    (tenant_id query intent : String) : Bool × Option String :=
  let config := get_config configs tenant_id
  if query.length > config.max_query_length then
    (false, some ("Query exceeds maximum length of "
      ++ toString config.max_query_length ++ " characters"))
  else if !is_agent_allowed configs tenant_id intent then
    (false, some ("Agent \x27" ++ intent ++ "\x27 is not available for your tier ("
      ++ config.tier.value ++ ")"))
  else if intent = "code" && !config.enable_code_execution then
    (false, some "Code execution is not enabled for your tenant")
  else if intent = "sql" && !config.enable_sql_execution then
    (false, some "SQL execution is not enabled for your tenant")
  else (true, Option.none)

/-! ## `_route_after_classification` (src/orchestrator/graph.py, lines
273-338).  The source's docstring announces "tenant validation" and the
body instantiates `TenantConfigManager()`, but the manager is never
consulted and nothing in this function can return "graceful_fallback";
the embedding mirrors that. -/

/-- Is `needle` a substring of `hay` (Python `in` on strings)? -/
def containsSub (needle : List Char) : List Char → Bool
  | [] => needle.isEmpty
  | c :: rest => (stripLit needle (c :: rest)).isSome || containsSub needle rest

/-- The fixed recency/time-sensitive keyword list of the router. -/
def researchKeywords : List String :=
  ["weather", "temperature", "current", "today", "now", "latest", "recent",
   "this week", "this month"]

/-- The lookup/explain-style trigger list for the document override. -/
def ragTriggers : List String :=
  ["explain", "summarize", "what", "where", "how", "list", "describe",
   "analysis", "insight"]

/-- `metadata = state.get("metadata", {}); metadata[k] = v;
state["metadata"] = metadata` — after `ensure_metadata`, the metadata value
is always a dict, so the non-dict fallback is unreachable. -/
def setMetaKey (st : Dict) (k : String) (v : PyVal) : Dict :=
  match dgetD st "metadata" (.dict []) with
  | .dict md => dset st "metadata" (.dict (dset md k v))
  | _ => st

/-- Python `max(v, q)` with a float literal second argument: the first
argument is returned when it is at least `q` (preserving its type), else
the float; a non-numeric first argument raises `TypeError`. -/
def pyMax (v : PyVal) (q : ℚ) : Option PyVal :=
  match v.asNum with
  | some c => some (if q ≤ c then v else .rat q)
  | Option.none => Option.none

/-- The `not intent or intent == UNKNOWN or confidence < 0.4` guard, with
Python's left-to-right short-circuit (the numeric comparison raises
`TypeError` on a non-numeric confidence only if reached). -/
def lowConfGuard (intent confidence : PyVal) : Except String Bool :=
  if !truthy intent then .ok true
  else if pyEqStr intent "unknown" then .ok true
  else
    match confidence.asNum with
    | some c => .ok (decide (c < 2 / 5))
    | Option.none => .error "TypeError: not supported between instances"

/-- The low-confidence/unknown block: document-based overrides, else the
chat-labelled dispatch to `fallback_handler`. -/
def racLowConfBlock (st : Dict) (q : String) : Dict × String :=
  let has_docs := truthy (dgetD st "uploaded_docs" (.list []))
    || truthy (dgetD st "workspace_documents" (.list []))
  if has_docs && ragTriggers.any (fun t => containsSub t.data (pyLower q).data)
      && q.length > 5 then
    (setMetaKey (dset (dset st "intent" (.str "rag")) "intent_confidence"
      (.rat (4 / 5))) "routing_override" (.str "auto_rag_due_to_docs"), "rag_agent")
  else if has_docs && q.length > 10 then
    (dset (dset st "intent" (.str "rag")) "intent_confidence" (.rat (11 / 20)),
     "rag_agent")
  else
    (dset (dset st "intent" (.str "chat")) "intent_confidence" (.rat (3 / 5)),
     "fallback_handler")

/-- The tail of the routing decision, after any keyword override: the
low-confidence block or the direct dispatch by intent label. -/
def racAfterOverride (st : Dict) (intent confidence : PyVal) (q : String) :
    Except String (Dict × String) :=
  match lowConfGuard intent confidence with
  | .error e => .error e
  | .ok true => .ok (racLowConfBlock st q)
  | .ok false =>
    if pyEqStr intent "rag" then .ok (st, "rag_agent")
    else if pyEqStr intent "sql" then .ok (st, "sql_agent")
    else if pyEqStr intent "code" then .ok (st, "code_agent")
    else if pyEqStr intent "research" then .ok (st, "research_agent")
    else if pyEqStr intent "chat" then .ok (st, "chat_agent")
    else .ok (st, "fallback_handler")

/-- The routing decision once the query string is in hand: research-keyword
override first, then `racAfterOverride`. -/
def racQuery (st : Dict) (q : String) : Except String (Dict × String) :=
  if researchKeywords.any (fun kw => containsSub kw.data (pyLower q).data) then
    match pyMax (dgetD st "intent_confidence" (.rat 0)) (3 / 4) with
    | some boosted =>
      racAfterOverride
        (setMetaKey (dset (dset st "intent" (.str "research"))
          "intent_confidence" boosted)
          "routing_override" (.str "keyword_based_research"))
        (.str "research") boosted q
    | Option.none => .error "TypeError: unsupported operand types for max"
  else
    racAfterOverride st (dgetD st "intent" (.str "unknown"))
      (dgetD st "intent_confidence" (.rat 0)) q

/-- The routing decision on the invariant-ensured state: `query.lower()`
raises unless the query value is a string. -/
def racBody (st : Dict) : Except String (Dict × String) :=
  match dgetD st "user_query" (.str "") with
  | .str q => racQuery st q
  | _ => .error "AttributeError: object has no attribute lower"

/-- `_route_after_classification`: invariants at entry, then the decision.
Returns the mutated state together with the chosen edge; a Python-level
`TypeError`/`AttributeError` on malformed values is an `.error`. -/
def route_after_classification (st : Dict) : Except String (Dict × String) :=
  racBody (ensure_intent (ensure_errors (ensure_metadata st)))

/-- The edge chosen by the routing decision, if it did not raise. -/
def racRoute (r : Except String (Dict × String)) : Option String :=
  match r with
  | .ok p => some p.2
  | .error _ => Option.none

/-- The state produced by the routing decision, if it did not raise. -/
def racState (r : Except String (Dict × String)) : Option Dict :=
  match r with
  | .ok p => some p.1
  | .error _ => Option.none

/-- A key of the metadata dict of the routed state. -/
def racMetaKey (r : Except String (Dict × String)) (k : String) : Option PyVal :=
  match r with
  | .ok p =>
    match dlookup p.1 "metadata" with
    | some (.dict md) => dlookup md k
    | _ => Option.none
  | .error _ => Option.none

/-- The `intent` value of the routed state. -/
def racIntent (r : Except String (Dict × String)) : Option PyVal :=
  match r with
  | .ok p => dlookup p.1 "intent"
  | .error _ => Option.none

/-- The numeric value of `intent_confidence` in the routed state. -/
def racConfNum (r : Except String (Dict × String)) : Option ℚ :=
  match r with
  | .ok p => (dgetD p.1 "intent_confidence" PyVal.none).asNum
  | .error _ => Option.none

/-- The state a denied tenant submits in the C5 scenario: an unknown (hence
FREE-tier) tenant with a confidently classified `sql` intent. -/
def c5State : Dict :=
  [("tenant_id", .str "acme"),
   ("user_query", .str "fetch all rows from the orders table"),
   ("intent", .str "sql"), ("intent_confidence", .rat (9 / 10))]

/-- `c5State` after the router's entry invariants (`ensure_metadata`,
`ensure_errors`, `ensure_intent`): intent is already present, so only the
empty metadata dict and error list are appended. -/
def c5Ensured : Dict :=
  [("tenant_id", .str "acme"),
   ("user_query", .str "fetch all rows from the orders table"),
   ("intent", .str "sql"), ("intent_confidence", .rat (9 / 10)),
   ("metadata", .dict []), ("errors", .list [])]

/-- A high-confidence chat-labelled state whose query contains the recency
keyword "weather"/"today", for the keyword-override witness. -/
def c8State : Dict :=
  [("user_query", .str "what is the weather today"),
   ("intent", .str "chat"), ("intent_confidence", .rat (99 / 100))]

/-! ## `LLMRouter` (src/llm/router.py).  The primary and fallback backends
are external effects: each is a parameter giving the outcome of its
(possible) invocation, a response or a raised exception.  `fallbackCalls`
counts how many times the fallback backend was actually invoked. -/

/-- An exception as `_is_quota_exhausted_429` can observe it: whether it is
a typed `google.api_core` `ResourceExhausted`, and its `str(err)` text. -/
structure PyException where
  typedResourceExhausted : Bool
  msg : String

/-- `LLMRouter._is_quota_exhausted_429`. -/
def is_quota_exhausted_429 (err : PyException) : Bool :=
  err.typedResourceExhausted
  || (containsSub "resourceexhausted".data (pyLower err.msg).data
      && containsSub "429".data (pyLower err.msg).data)
  || (containsSub "resource exhausted".data (pyLower err.msg).data
      && containsSub "429".data (pyLower err.msg).data)
  || (containsSub "429".data (pyLower err.msg).data
      && containsSub "quota".data (pyLower err.msg).data)

/-- What `LLMRouter.invoke` produces: the returned response or the raised
exception, the state as left behind, and how many times the fallback
backend was invoked. -/
structure InvokeResult where
  result : Except PyException String
  state : Option Dict
  fallbackCalls : Nat

/-- `state.get("metadata") or {}`. -/
def mdOr (v : PyVal) : PyVal := if truthy v then v else .dict []

/-- The `fallback_reason` string recorded after a quota fallback. -/
def fallbackReasonMsg : String :=
  "ResourceExhausted (429) - Gemini quota limit reached"

/-- The fallback attempt of `invoke`: invoke the secondary, then record
`model_used`, `fallback_reason` and `metadata["fallback_used"]` when a
state dict was passed. -/
def invokeFallbackSome (fallback_repo_id resp : String) (st : Dict) :
    Except String InvokeResult :=
  match mdOr (dgetD st "metadata" PyVal.none) with
  | .dict md =>
    .ok { result := .ok resp,
          state := some (dset (dset (dset st "model_used"
            (.str ("huggingface:" ++ fallback_repo_id)))
            "fallback_reason" (.str fallbackReasonMsg))
            "metadata" (.dict (dset md "fallback_used" (.bool true)))),
          fallbackCalls := 1 }
  | _ => .error "TypeError: object does not support item assignment"

/-- The successful-or-raising outcome of the fallback invocation, threaded
through the state bookkeeping. -/
def invokeFallback (fallback_repo_id : String)
    (fallback : Except PyException String) (state : Option Dict) :
    Except String InvokeResult :=
  match fallback with
  | .ok resp =>
    match state with
    | Option.none =>
      .ok { result := .ok resp, state := Option.none, fallbackCalls := 1 }
    | some st => invokeFallbackSome fallback_repo_id resp st
  | .error e2 => .ok { result := .error e2, state := state, fallbackCalls := 1 }

/-- The exception branch of `invoke`: fall back only when enabled and the
quota signal matches, else re-raise unmodified. -/
def invokeOnError (enable_fallback : Bool) (fallback_repo_id : String)
    (e : PyException) (fallback : Except PyException String)
    (state : Option Dict) : Except String InvokeResult :=
  if enable_fallback && is_quota_exhausted_429 e then
    invokeFallback fallback_repo_id fallback state
  else
    .ok { result := .error e, state := state, fallbackCalls := 0 }

/-- `LLMRouter.invoke`: primary first; on an exception, fall back only when
fallback is enabled and the quota signal matches, else re-raise; the
fallback path records `model_used`, `fallback_reason` and
`metadata["fallback_used"]`.  The outer `.error` is the Python `TypeError`
of `md["fallback_used"] = True` on a truthy non-dict metadata value. -/
def LLMRouter_invoke (enable_fallback : Bool)
    (primary_model fallback_repo_id : String)
    (primary fallback : Except PyException String) (state : Option Dict) :
    Except String InvokeResult :=
  match primary with
  | .ok resp =>
    .ok { result := .ok resp,
          state := state.map (fun st =>
            dset (dset st "model_used" (.str primary_model))
              "fallback_reason" PyVal.none),
          fallbackCalls := 0 }
  | .error e => invokeOnError enable_fallback fallback_repo_id e fallback state

/-- A non-typed exception whose text carries the 429/quota markers. -/
def c6QuotaErr : PyException :=
  { typedResourceExhausted := false,
    msg := "ResourceExhausted: 429 Quota exceeded for model" }

/-- An exception carrying none of the quota markers. -/
def c6ServerErr : PyException :=
  { typedResourceExhausted := false, msg := "InternalServerError: 500" }

/-! ## Document registration in `_load_persistent_context_node`
(src/orchestrator/graph.py, lines 178-220) over the SQLite store
(src/storage/sqlite_store.py).  The store is modelled for one fixed
(user_id, workspace_id) as the ordered list of its `user_documents` rows;
`os.path.normpath(os.path.abspath(.))` and the sha256-derived doc id are
deterministic external functions, passed as parameters `normAbs` and
`docIdOf`. -/

/-- One row of `user_documents` for the fixed (user, workspace). -/
structure DocRec where
  doc_id : String
  file_path : String
  vector_index_path : String

/-- `upsert_document`: insert, or on a (user, workspace, doc_id) conflict
update `file_path` and `vector_index_path` in place. -/
def upsert_document (db : List DocRec) (doc_id file_path vip : String) :
    List DocRec :=
  if db.any (fun r => r.doc_id = doc_id) then
    db.map (fun r => if r.doc_id = doc_id then
      { r with file_path := file_path, vector_index_path := vip } else r)
  else db ++ [{ doc_id := doc_id, file_path := file_path,
                vector_index_path := vip }]

/-- `list_workspace_documents`' second component: the last row's
`vector_index_path`, or None when the workspace has no documents. -/
def listIndexPath (db : List DocRec) : Option String :=
  db.getLast?.map (fun r => r.vector_index_path)

/-- The `existing_paths` set: the normalized absolute path of every row
with a truthy `file_path`. -/
def existingPaths (normAbs : String → String) (db : List DocRec) :
    List String :=
  (db.filter (fun r => r.file_path ≠ "")).map (fun r => normAbs r.file_path)

/-- Python `index_path or default` on an optional string ("" is falsy). -/
def pyOrStr (v : Option String) (dflt : String) : String :=
  match v with
  | some s => if s = "" then dflt else s
  | Option.none => dflt

/-- One iteration of the `for p in incoming_paths` loop: skip a path whose
normalized absolute form is already registered, else append it to
`truly_new_paths` and upsert a row for it. -/
def registerStep (normAbs docIdOf : String → String) (existing : List String)
    (base : String) (acc : List String × List DocRec) (p : String) :
    List String × List DocRec :=
  if existing.contains (normAbs p) then acc
  else (acc.1 ++ [p],
    upsert_document acc.2 (docIdOf (normAbs p)) (normAbs p) base)

/-- What the registration portion leaves behind: the store and the state
fields it writes (`workspace_documents`, `uploaded_doc_ids`,
`vector_index_path`, and the `uploaded_docs` list passed onward). -/
structure LoadDocsResult where
  db : List DocRec
  workspace_documents : List DocRec
  uploaded_doc_ids : List String
  vector_index_path : Option String
  uploaded_docs : List String

/-- After the loop: refresh the workspace view only when something was
actually registered (`if truly_new_paths:`); `uploaded_docs` always becomes
`truly_new_paths`. -/
def loadDocsAfter (db0 : List DocRec) (res : List String × List DocRec) :
    LoadDocsResult :=
  if res.1.isEmpty then
    { db := res.2, workspace_documents := db0,
      uploaded_doc_ids := db0.map (fun r => r.doc_id),
      vector_index_path := listIndexPath db0, uploaded_docs := [] }
  else
    { db := res.2, workspace_documents := res.2,
      uploaded_doc_ids := res.2.map (fun r => r.doc_id),
      vector_index_path := listIndexPath res.2, uploaded_docs := res.1 }

/-- Lines 178-220 of `_load_persistent_context_node`: read the workspace
view, register the truly new incoming paths, and pass only those onward. -/
def loadDocsPortion (normAbs docIdOf : String → String)
    (defaultIndex : String) (db0 : List DocRec) (incoming : List String) :
    LoadDocsResult :=
  if incoming.isEmpty then
    { db := db0, workspace_documents := db0,
      uploaded_doc_ids := db0.map (fun r => r.doc_id),
      vector_index_path := listIndexPath db0, uploaded_docs := [] }
  else
    loadDocsAfter db0 (incoming.foldl
      (registerStep normAbs docIdOf (existingPaths normAbs db0)
        (pyOrStr (listIndexPath db0) defaultIndex)) ([], db0))

/-! ## The idempotent message append of `_classify_intent_node`
(src/orchestrator/graph.py, lines 235-260): normalization and node-entry
invariants, then the guarded append of the user's query.  The trailing
`intent_router.classify` call (wrapped in the node's try/except) is outside
this portion. -/

/-- Python `v + 1` on the conversation counter; non-numeric raises. -/
def pyAdd1 : PyVal → Option PyVal
  | .int n => some (.int (n + 1))
  | .bool b => some (.int ((if b then 1 else 0) + 1))
  | .rat q => some (.rat (q + 1))
  | _ => Option.none

/-- The `should_append` guard: with a nonempty message list, the negation of
`messages[-1].get("role") == "user" and messages[-1].get("content") ==
current_query`; `.get` on a non-dict last message raises. -/
def lastMsgMatches (ms : List PyVal) (q : PyVal) : Except String Bool :=
  match ms.getLast? with
  | Option.none => .ok false
  | some (.dict md) =>
    .ok (pyEqStr (dgetD md "role" PyVal.none) "user"
      && pyEq (dgetD md "content" PyVal.none) q)
  | some _ => .error "AttributeError: object has no attribute get"

/-- The appended message: role "user", the query as content, and metadata
carrying the turn and the `f"{session_id}-{turn}"` message id. -/
def userTurnMsg (q turnVal sid : PyVal) : PyVal :=
  .dict [("role", .str "user"), ("content", q),
    ("metadata", .dict [("turn", turnVal),
      ("message_id", .str (pyStr sid ++ "-" ++ pyStr turnVal))])]

/-- The append action: increment `conversation_turn` (Python `+ 1` raises
on a non-numeric value), then append the user message. -/
def caDoAppend (st : Dict) (q : PyVal) : Except String Dict :=
  match pyAdd1 (dgetD st "conversation_turn" (.int 0)) with
  | Option.none => .error "TypeError: unsupported operand type"
  | some turn1 =>
    match dlookup st "session_id" with
    | Option.none => .error "KeyError: session_id"
    | some sid =>
      .ok (appendMessage (dset st "conversation_turn" turn1)
        (userTurnMsg q turn1 sid))

/-- Dispatch on the `should_append` guard. -/
def caWithMsgs (st : Dict) (q : PyVal) (ms : List PyVal) :
    Except String Dict :=
  match lastMsgMatches ms q with
  | .error e => .error e
  | .ok true => .ok st
  | .ok false => caDoAppend st q

/-- `messages = state.get("messages", [])`; subscripting a non-list raises
(unreachable after normalization). -/
def caWithQuery (st : Dict) (q : PyVal) : Except String Dict :=
  match dgetD st "messages" (.list []) with
  | .list ms => caWithMsgs st q ms
  | _ => .error "TypeError: object is not subscriptable"

/-- The append phase on the invariant-ensured state;
`current_query = state["user_query"]` raises KeyError when absent. -/
def classifyAppendCore (st : Dict) : Except String Dict :=
  match dlookup st "user_query" with
  | Option.none => .error "KeyError: user_query"
  | some q => caWithQuery st q

/-- Lines 237-260 of `_classify_intent_node`: `normalize_state`, the three
`ensure_*` invariants, then the idempotent append. -/
def classify_intent_append (st0 : Dict) : Except String Dict :=
  classifyAppendCore
    (ensure_intent (ensure_errors (ensure_metadata (normalize_state st0))))

/-- The `messages` value of the node's resulting state. -/
def caMessages (r : Except String Dict) : Option PyVal :=
  match r with
  | .ok st => dlookup st "messages"
  | .error _ => Option.none

/-- The `conversation_turn` value of the node's resulting state. -/
def caTurn (r : Except String Dict) : Option PyVal :=
  match r with
  | .ok st => dlookup st "conversation_turn"
  | .error _ => Option.none

/-- A fresh-session state for the append-idempotence witness. -/
def c10State : Dict :=
  [("user_query", .str "hello"), ("messages", .list []),
   ("conversation_turn", .int 0), ("session_id", .str "sess1")]

/-! ## `IntentRouter.classify` (src/agents/intent_router.py, lines 48-179).
External effects are parameters: whether `prompt.format_messages` raises,
the router invocation's outcome (its state bookkeeping and the response's
`content` attribute), the `JsonOutputParser.parse` function, and Python's
`float()` on strings.  The history block (lines 60-70) is wrapped in its
own try/except, mutates nothing and only feeds the prompt text, so it has
no observable effect to model; the context block (lines 73-89) can raise
`len()` TypeErrors and is modelled. -/

/-- Python `len(v)` (None when `len` raises `TypeError`). -/
def pyLen : PyVal → Option Nat
  | .str s => some s.length
  | .list xs => some xs.length
  | .dict kvs => some kvs.length
  | _ => Option.none

/-- Python `float(v)` under `except (ValueError, TypeError)`: numeric
values coerce, strings go through the platform float parser `fos`, and
everything else is None (the caught exception). -/
def pyFloat (fos : String → Option ℚ) : PyVal → Option ℚ
  | .bool b => some (if b then 1 else 0)
  | .int n => some (n : ℚ)
  | .rat q => some q
  | .str s => fos s
  | _ => Option.none

/-- The closed intent set `{i.value for i in Intent}`. -/
def validIntents : List String :=
  ["rag", "sql", "code", "research", "chat", "unknown"]

/-- `intent not in valid_intents`, negated: only a string belonging to the
closed set passes. -/
def validIntentVal : PyVal → Bool
  | .str s => validIntents.contains s
  | _ => false

/-- `parsed.get("intent") or Intent.UNKNOWN.value`. -/
def intentOrUnknown (v : PyVal) : PyVal :=
  if truthy v then v else .str "unknown"

/-- `state["errors"].append(msg)`; after `ensure_errors` the field is always
a list, so the fallback is unreachable in the states classify receives. -/
def appendError (st : Dict) (msg : String) : Dict :=
  match dlookup st "errors" with
  | some (.list es) => dset st "errors" (.list (es ++ [.str msg]))
  | _ => st

/-- The repeated state mutation of every classify exit: set `intent` and
`intent_confidence`, and record the reasoning in metadata. -/
def setIntentConf (st : Dict) (lbl cv reasoning : PyVal) : Dict :=
  setMetaKey (dset (dset st "intent" lbl) "intent_confidence" cv)
    "intent_reasoning" reasoning

/-- What the LLM router hands back to classify on success: its state
bookkeeping (`model_used` / `fallback_reason` / `metadata` updates, which
keep `metadata` a dict) and the response's `content` attribute. -/
structure RouterResp where
  upd : Dict → Dict
  contentAttr : Option PyVal

/-- The external effects classify interacts with. -/
structure ClassifyEnv where
  fmtErr : Option String
  invoke : Except String RouterResp
  parse : String → Except String PyVal
  floatOfStr : String → Option ℚ

/-- `float(parsed.get("confidence", 0.5))` with the 0.5 fallback on a
caught coercion error. -/
def confFrom (env : ClassifyEnv) (pd : Dict) : ℚ :=
  match pyFloat env.floatOfStr (dgetD pd "confidence" (.rat (1 / 2))) with
  | some c => c
  | Option.none => 1 / 2

/-- Lines 158-179: extract and validate the parsed object's fields, then
write them to state. -/
def classifyFromParsed (env : ClassifyEnv) (st : Dict) (pd : Dict) : Dict :=
  if validIntentVal (intentOrUnknown (dgetD pd "intent" PyVal.none)) then
    setIntentConf st (intentOrUnknown (dgetD pd "intent" PyVal.none))
      (.rat (confFrom env pd)) (.str (pyStr (dgetD pd "reasoning" (.str ""))))
  else
    setIntentConf st (.str "unknown") (.rat 0)
      (.str (pyStr (dgetD pd "reasoning" (.str ""))))

/-- Lines 147-156: JSON parsing; `parsed.get` on a valid non-object JSON
value raises an uncaught `AttributeError`. -/
def classifyParse (env : ClassifyEnv) (st : Dict) (text : String) :
    Except String Dict :=
  match env.parse text with
  | .error e => .ok (setIntentConf st (.str "unknown") (.rat 0)
      (.str ("Invalid JSON from intent classifier: " ++ e)))
  | .ok (.dict pd) => .ok (classifyFromParsed env st pd)
  | .ok _ => .error "AttributeError: object has no attribute get"

/-- Lines 136-145: `getattr(response, "content", None)` must be a string. -/
def classifyText (env : ClassifyEnv) (st : Dict) (contentAttr : Option PyVal) :
    Except String Dict :=
  match contentAttr with
  | some (.str text) => classifyParse env st text
  | _ => .ok (setIntentConf st (.str "unknown") (.rat 0)
      (.str "Failed to parse intent response"))

/-- Lines 119-134: router invocation; on success the router's state
bookkeeping has been applied. -/
def classifyInvoke (env : ClassifyEnv) (st : Dict) : Except String Dict :=
  match env.invoke with
  | .error e => .ok (setIntentConf
      (appendError st ("LLM invocation error: " ++ e)) (.str "unknown")
      (.rat 0) (.str ("LLM invocation failed: " ++ e)))
  | .ok resp => classifyText env (resp.upd st) resp.contentAttr

/-- Lines 102-117: prompt formatting. -/
def classifyFmt (env : ClassifyEnv) (st : Dict) : Except String Dict :=
  match env.fmtErr with
  | some e => .ok (setIntentConf
      (appendError st ("Prompt formatting error: " ++ e)) (.str "unknown")
      (.rat 0) (.str ("Prompt formatting failed: " ++ e)))
  | Option.none => classifyInvoke env st

/-- Lines 91-100: the empty-query early exit. -/
def classifyQuery (env : ClassifyEnv) (st : Dict) : Except String Dict :=
  if truthy (dgetD st "user_query" (.str "")) then classifyFmt env st
  else .ok (setIntentConf st (.str "unknown") (.rat 0) (.str "Empty query"))

/-- Lines 73-84: the document-count context, whose `len()` calls raise on
truthy non-sized values. -/
def classifyDocsCheck (env : ClassifyEnv) (st : Dict) : Except String Dict :=
  if truthy (dgetD st "uploaded_docs" (.list []))
      || truthy (dgetD st "workspace_documents" (.list [])) then
    match pyLen (dgetD st "uploaded_docs" (.list [])),
        pyLen (dgetD st "workspace_documents" (.list [])) with
    | some _, some _ => classifyQuery env st
    | _, _ => .error "TypeError: object has no len"
  else classifyQuery env st

/-- `IntentRouter.classify`: node-entry invariants, then the pipeline; an
uncaught Python exception is an `.error`. -/
def classify (env : ClassifyEnv) (st0 : Dict) : Except String Dict :=
  classifyDocsCheck env (ensure_intent (ensure_errors (ensure_metadata st0)))

/-- What the C2 sentence promises of a classify result: it is a returned
state (no exception) whose `intent` is a non-null member of the closed
intent set and whose `intent_confidence` is a float in [0, 1]. -/
def ClassifyGood (out : Except String Dict) : Prop :=
  ∃ st lbl c, out = .ok st
    ∧ dlookup st "intent" = some (.str lbl)
    ∧ validIntents.contains lbl = true
    ∧ dlookup st "intent_confidence" = some (.rat c)
    ∧ 0 ≤ c ∧ c ≤ 1

/-- The `intent` of a classify result. -/
def intentOf (r : Except String Dict) : Option PyVal :=
  match r with
  | .ok st => dlookup st "intent"
  | .error _ => Option.none

/-- The `intent_confidence` of a classify result. -/
def confOf (r : Except String Dict) : Option PyVal :=
  match r with
  | .ok st => dlookup st "intent_confidence"
  | .error _ => Option.none

/-- A plain state for the classify scenarios. -/
def c2State : Dict := [("user_query", .str "show the quarterly report")]

/-- The parsed object of the benign classify scenario. -/
def c2Parsed : Dict :=
  [("intent", .str "rag"), ("confidence", .rat (9 / 10)),
   ("reasoning", .str "document question")]

/-- A benign environment: no failures, responding with a valid object. -/
def c2Env : ClassifyEnv :=
  { fmtErr := Option.none,
    invoke := .ok { upd := fun d => d, contentAttr := some (.str "resp") },
    parse := fun _ => .ok (.dict c2Parsed),
    floatOfStr := fun _ => Option.none }

/-- An environment whose classifier answers a valid label with confidence
2.5 — valid JSON, valid intent, out-of-range confidence. -/
def c2BadConfEnv : ClassifyEnv :=
  { fmtErr := Option.none,
    invoke := .ok { upd := fun d => d, contentAttr := some (.str "resp") },
    parse := fun _ => .ok (.dict [("intent", .str "rag"),
      ("confidence", .rat (5 / 2))]),
    floatOfStr := fun _ => Option.none }

/-- An environment whose classifier answers the valid non-object JSON
`[]`, on which `parsed.get` raises. -/
def c2ListEnv : ClassifyEnv :=
  { fmtErr := Option.none,
    invoke := .ok { upd := fun d => d, contentAttr := some (.str "resp") },
    parse := fun _ => .ok (.list []),
    floatOfStr := fun _ => Option.none }

/-! ## Theorems: dict operation lemmas -/

theorem dlookup_append (d₁ d₂ : Dict) (k : String) :
    dlookup (d₁ ++ d₂) k = ((dlookup d₁ k).rec (dlookup d₂ k) (fun v => some v)) := by
  induction d₁ with
  | nil => simp [dlookup]
  | cons p rest ih =>
    obtain ⟨k₀, w⟩ := p
    by_cases hk : k₀ = k
    · simp [dlookup, hk]
    · simp [dlookup, hk, ih]

theorem dlookup_append_none (d₁ d₂ : Dict) (k : String)
    (h : dlookup d₁ k = Option.none) :
    dlookup (d₁ ++ d₂) k = dlookup d₂ k := by
  rw [dlookup_append, h]

theorem dlookup_append_some (d₁ d₂ : Dict) (k : String) (v : PyVal)
    (h : dlookup d₁ k = some v) :
    dlookup (d₁ ++ d₂) k = some v := by
  rw [dlookup_append, h]

theorem dlookup_dupdate_same (d : Dict) (k : String) (v : PyVal)
    (h : (dlookup d k).isSome) :
    dlookup (dupdate d k v) k = some v := by
  induction d with
  | nil => simp [dlookup] at h
  | cons p rest ih =>
    obtain ⟨k₀, w⟩ := p
    by_cases hk : k₀ = k
    · show dlookup ((if k₀ = k then (k, v) else (k₀, w)) :: dupdate rest k v) k = some v
      rw [if_pos hk]
      simp [dlookup]
    · show dlookup ((if k₀ = k then (k, v) else (k₀, w)) :: dupdate rest k v) k = some v
      rw [if_neg hk]
      simp only [dlookup, hk, if_false] at h ⊢
      exact ih h

theorem dlookup_dupdate_other (d : Dict) (k k' : String) (v : PyVal) (h : k' ≠ k) :
    dlookup (dupdate d k v) k' = dlookup d k' := by
  induction d with
  | nil => rfl
  | cons p rest ih =>
    obtain ⟨k₀, w⟩ := p
    by_cases hk : k₀ = k
    · show dlookup ((if k₀ = k then (k, v) else (k₀, w)) :: dupdate rest k v) k'
        = dlookup ((k₀, w) :: rest) k'
      rw [if_pos hk]
      subst hk
      simp only [dlookup, Ne.symm h, if_false, ih]
    · show dlookup ((if k₀ = k then (k, v) else (k₀, w)) :: dupdate rest k v) k'
        = dlookup ((k₀, w) :: rest) k'
      rw [if_neg hk]
      by_cases hk' : k₀ = k'
      · simp [dlookup, hk']
      · simp [dlookup, hk', ih]

theorem dlookup_dset_same (d : Dict) (k : String) (v : PyVal) :
    dlookup (dset d k v) k = some v := by
  unfold dset
  by_cases h : (dlookup d k).isSome
  · simp [h, dlookup_dupdate_same d k v h]
  · rw [Option.not_isSome_iff_eq_none] at h
    simp [h, dlookup_append_none _ _ _ h, dlookup]

theorem dlookup_dset_other (d : Dict) (k k' : String) (v : PyVal) (h : k' ≠ k) :
    dlookup (dset d k v) k' = dlookup d k' := by
  unfold dset
  by_cases hs : (dlookup d k).isSome
  · simp [hs, dlookup_dupdate_other d k k' v h]
  · simp only [hs, Bool.false_eq_true, if_false]
    rw [dlookup_append]
    cases hv : dlookup d k' with
    | none => simp [dlookup, Ne.symm h, h]
    | some w => simp

theorem dsetdefault_of_isSome (d : Dict) (k : String) (v : PyVal)
    (h : (dlookup d k).isSome) : dsetdefault d k v = d := by
  simp [dsetdefault, h]

theorem dlookup_dsetdefault_same (d : Dict) (k : String) (v : PyVal) :
    dlookup (dsetdefault d k v) k = some ((dlookup d k).getD v) := by
  unfold dsetdefault
  by_cases hs : (dlookup d k).isSome
  · obtain ⟨w, hw⟩ := Option.isSome_iff_exists.mp hs
    simp [hs, hw]
  · rw [Option.not_isSome_iff_eq_none] at hs
    simp [hs, dlookup_append_none _ _ _ hs, dlookup]

theorem dlookup_dsetdefault_other (d : Dict) (k k' : String) (v : PyVal) (h : k' ≠ k) :
    dlookup (dsetdefault d k v) k' = dlookup d k' := by
  unfold dsetdefault
  by_cases hs : (dlookup d k).isSome
  · simp [hs]
  · simp only [hs, Bool.false_eq_true, if_false]
    rw [dlookup_append]
    cases hv : dlookup d k' with
    | none => simp [dlookup, Ne.symm h, h]
    | some w => simp

theorem dlookup_none_not_mem (d : Dict) (k : String)
    (h : dlookup d k = Option.none) : ∀ p ∈ d, p.1 ≠ k := by
  induction d with
  | nil => intro p hp; cases hp
  | cons q rest ih =>
    obtain ⟨k₀, w⟩ := q
    by_cases hk : k₀ = k
    · simp [dlookup, hk] at h
    · intro p hp
      rcases List.mem_cons.mp hp with rfl | hp'
      · exact hk
      · simp only [dlookup, hk, if_false] at h
        exact ih h p hp'

/-! ## Theorems: `FieldFix` invariant machinery -/

theorem Established_of_lookup_eq {d d' : Dict} {f : FieldFix}
    (h : Established d f) (heq : dlookup d' f.key = dlookup d f.key) :
    Established d' f := by
  cases f with
  | setdflt k v =>
    simp only [Established, FieldFix.key] at h heq ⊢
    rw [heq]; exact h
  | setdfltList k =>
    simp only [Established, FieldFix.key] at h heq ⊢
    rw [heq]; exact h
  | setdefDict k =>
    simp only [Established, FieldFix.key] at h heq ⊢
    rw [heq]; exact h

theorem Established.lookup_isSome {d : Dict} {f : FieldFix} (h : Established d f) :
    (dlookup d f.key).isSome = true := by
  cases f with
  | setdflt k v => exact h
  | setdfltList k => obtain ⟨xs, hx⟩ := h; simp [FieldFix.key, hx]
  | setdefDict k => obtain ⟨kvs, hx⟩ := h; simp [FieldFix.key, hx]

theorem applyFix_lookup_other (d : Dict) (f : FieldFix) (k : String) (h : k ≠ f.key) :
    dlookup (applyFix d f) k = dlookup d k := by
  cases f with
  | setdflt k₀ v =>
    simp only [FieldFix.key] at h
    exact dlookup_dsetdefault_other _ _ _ _ h
  | setdfltList k₀ =>
    simp only [FieldFix.key] at h
    show dlookup (match dlookup (dsetdefault d k₀ (.list [])) k₀ with
      | some (.list _) => dsetdefault d k₀ (.list [])
      | _ => dset (dsetdefault d k₀ (.list [])) k₀ (.list [])) k = dlookup d k
    split
    · exact dlookup_dsetdefault_other _ _ _ _ h
    · rw [dlookup_dset_other _ _ _ _ h]
      exact dlookup_dsetdefault_other _ _ _ _ h
  | setdefDict k₀ =>
    simp only [FieldFix.key] at h
    show dlookup (match dlookup (dsetdefault d k₀ (.dict [])) k₀ with
      | some (.dict _) => dsetdefault d k₀ (.dict [])
      | _ => dset (dsetdefault d k₀ (.dict [])) k₀ (.dict [])) k = dlookup d k
    split
    · exact dlookup_dsetdefault_other _ _ _ _ h
    · rw [dlookup_dset_other _ _ _ _ h]
      exact dlookup_dsetdefault_other _ _ _ _ h

theorem applyFix_establishes (d : Dict) (f : FieldFix) :
    Established (applyFix d f) f := by
  cases f with
  | setdflt k v =>
    show (dlookup (dsetdefault d k v) k).isSome = true
    rw [dlookup_dsetdefault_same]
    rfl
  | setdfltList k =>
    show ∃ xs, dlookup (match dlookup (dsetdefault d k (.list [])) k with
      | some (.list _) => dsetdefault d k (.list [])
      | _ => dset (dsetdefault d k (.list [])) k (.list [])) k = some (.list xs)
    split
    · next xs heq => exact ⟨xs, heq⟩
    · exact ⟨[], dlookup_dset_same _ _ _⟩
  | setdefDict k =>
    show ∃ kvs, dlookup (match dlookup (dsetdefault d k (.dict [])) k with
      | some (.dict _) => dsetdefault d k (.dict [])
      | _ => dset (dsetdefault d k (.dict [])) k (.dict [])) k = some (.dict kvs)
    split
    · next kvs heq => exact ⟨kvs, heq⟩
    · exact ⟨[], dlookup_dset_same _ _ _⟩

theorem applyFix_of_established (d : Dict) (f : FieldFix) (h : Established d f) :
    applyFix d f = d := by
  cases f with
  | setdflt k v => exact dsetdefault_of_isSome _ _ _ h
  | setdfltList k =>
    obtain ⟨xs, hx⟩ := h
    have hd1 : dsetdefault d k (.list []) = d :=
      dsetdefault_of_isSome _ _ _ (by simp [hx])
    show (match dlookup (dsetdefault d k (.list [])) k with
      | some (.list _) => dsetdefault d k (.list [])
      | _ => dset (dsetdefault d k (.list [])) k (.list [])) = d
    rw [hd1, hx]
  | setdefDict k =>
    obtain ⟨kvs, hx⟩ := h
    have hd1 : dsetdefault d k (.dict []) = d :=
      dsetdefault_of_isSome _ _ _ (by simp [hx])
    show (match dlookup (dsetdefault d k (.dict [])) k with
      | some (.dict _) => dsetdefault d k (.dict [])
      | _ => dset (dsetdefault d k (.dict [])) k (.dict [])) = d
    rw [hd1, hx]

theorem foldl_applyFix_lookup_notin (specs : List FieldFix) (d : Dict) (k : String)
    (h : k ∉ specs.map FieldFix.key) :
    dlookup (specs.foldl applyFix d) k = dlookup d k := by
  induction specs generalizing d with
  | nil => rfl
  | cons f rest ih =>
    simp only [List.map_cons, List.mem_cons, not_or] at h
    rw [List.foldl_cons, ih _ h.2, applyFix_lookup_other _ _ _ h.1]

theorem foldl_applyFix_establishes (specs : List FieldFix) (d : Dict)
    (hnd : (specs.map FieldFix.key).Nodup) :
    ∀ f ∈ specs, Established (specs.foldl applyFix d) f := by
  induction specs generalizing d with
  | nil => intro f hf; cases hf
  | cons g rest ih =>
    intro f hf
    rw [List.map_cons, List.nodup_cons] at hnd
    rw [List.foldl_cons]
    rcases List.mem_cons.mp hf with rfl | hf'
    · exact Established_of_lookup_eq (applyFix_establishes d f)
        (foldl_applyFix_lookup_notin rest _ _ hnd.1)
    · exact ih (applyFix d g) hnd.2 f hf'

theorem foldl_applyFix_id (specs : List FieldFix) (d : Dict)
    (h : ∀ f ∈ specs, Established d f) : specs.foldl applyFix d = d := by
  induction specs with
  | nil => rfl
  | cons g rest ih =>
    rw [List.foldl_cons, applyFix_of_established d g (h g (List.mem_cons_self _ _))]
    exact ih (fun f hf => h f (List.mem_cons_of_mem _ hf))

/-! ## Theorems: `EntriesAll` machinery for the is_guest assignment -/

theorem entriesAll_dupdate_self (d : Dict) (k : String) (v : PyVal) :
    EntriesAll (dupdate d k v) k v := by
  induction d with
  | nil => intro p hp; cases hp
  | cons q rest ih =>
    obtain ⟨k₀, w⟩ := q
    intro p hp hk
    show p.2 = v
    rcases List.mem_cons.mp hp with rfl | hp'
    · by_cases h0 : k₀ = k
      · simp [if_pos h0]
      · simp only [if_neg h0] at hk ⊢
        exact absurd hk h0
    · exact ih p hp' hk

theorem entriesAll_dset (d : Dict) (k : String) (v : PyVal) :
    EntriesAll (dset d k v) k v := by
  unfold dset
  by_cases hs : (dlookup d k).isSome
  · simp only [hs, if_true]
    exact entriesAll_dupdate_self d k v
  · simp only [hs, Bool.false_eq_true, if_false]
    rw [Option.not_isSome_iff_eq_none] at hs
    intro p hp hk
    rcases List.mem_append.mp hp with hp' | hp'
    · exact absurd hk (dlookup_none_not_mem d k hs p hp')
    · rcases List.mem_singleton.mp hp' with rfl
      rfl

theorem dupdate_of_entriesAll {d : Dict} {k : String} {v : PyVal}
    (hall : EntriesAll d k v) : dupdate d k v = d := by
  induction d with
  | nil => rfl
  | cons q rest ih =>
    obtain ⟨k₀, w⟩ := q
    show (if k₀ = k then (k, v) else (k₀, w)) :: dupdate rest k v = (k₀, w) :: rest
    have htail : EntriesAll rest k v := fun p hp => hall p (List.mem_cons_of_mem _ hp)
    by_cases h0 : k₀ = k
    · have hw : w = v := hall (k₀, w) (List.mem_cons_self _ _) h0
      rw [if_pos h0, ih htail, h0, hw]
    · rw [if_neg h0, ih htail]

theorem dset_of_entriesAll {d : Dict} {k : String} {v : PyVal}
    (hall : EntriesAll d k v) (hs : (dlookup d k).isSome) :
    dset d k v = d := by
  unfold dset
  simp only [hs, if_true]
  exact dupdate_of_entriesAll hall

theorem entriesAll_dsetdefault_other {d : Dict} {k : String} {v : PyVal}
    (k₀ : String) (v₀ : PyVal) (h : k₀ ≠ k) (hall : EntriesAll d k v) :
    EntriesAll (dsetdefault d k₀ v₀) k v := by
  unfold dsetdefault
  by_cases hs : (dlookup d k₀).isSome
  · simpa [hs] using hall
  · simp only [hs, Bool.false_eq_true, if_false]
    intro p hp hk
    rcases List.mem_append.mp hp with hp' | hp'
    · exact hall p hp' hk
    · rcases List.mem_singleton.mp hp' with rfl
      exact absurd hk h

theorem entriesAll_dupdate_other {d : Dict} {k : String} {v : PyVal}
    (k₀ : String) (v₀ : PyVal) (h : k₀ ≠ k) (hall : EntriesAll d k v) :
    EntriesAll (dupdate d k₀ v₀) k v := by
  induction d with
  | nil => intro p hp; cases hp
  | cons q rest ih =>
    obtain ⟨k₁, w⟩ := q
    intro p hp hk
    show p.2 = v
    have htail : EntriesAll rest k v := fun p hp => hall p (List.mem_cons_of_mem _ hp)
    rcases List.mem_cons.mp hp with rfl | hp'
    · by_cases h1 : k₁ = k₀
      · simp only [if_pos h1] at hk ⊢
        exact absurd hk h
      · simp only [if_neg h1] at hk ⊢
        exact hall (k₁, w) (List.mem_cons_self _ _) hk
    · exact ih htail p hp' hk

theorem entriesAll_dset_other {d : Dict} {k : String} {v : PyVal}
    (k₀ : String) (v₀ : PyVal) (h : k₀ ≠ k) (hall : EntriesAll d k v) :
    EntriesAll (dset d k₀ v₀) k v := by
  unfold dset
  by_cases hs : (dlookup d k₀).isSome
  · simp only [hs, if_true]
    exact entriesAll_dupdate_other k₀ v₀ h hall
  · simp only [hs, Bool.false_eq_true, if_false]
    intro p hp hk
    rcases List.mem_append.mp hp with hp' | hp'
    · exact hall p hp' hk
    · rcases List.mem_singleton.mp hp' with rfl
      exact absurd hk h

theorem entriesAll_applyFix_other {d : Dict} {k : String} {v : PyVal}
    (f : FieldFix) (h : f.key ≠ k) (hall : EntriesAll d k v) :
    EntriesAll (applyFix d f) k v := by
  cases f with
  | setdflt k₀ v₀ => exact entriesAll_dsetdefault_other k₀ v₀ h hall
  | setdfltList k₀ =>
    show EntriesAll (match dlookup (dsetdefault d k₀ (.list [])) k₀ with
      | some (.list _) => dsetdefault d k₀ (.list [])
      | _ => dset (dsetdefault d k₀ (.list [])) k₀ (.list [])) k v
    split
    · exact entriesAll_dsetdefault_other k₀ _ h hall
    · exact entriesAll_dset_other k₀ _ h (entriesAll_dsetdefault_other k₀ _ h hall)
  | setdefDict k₀ =>
    show EntriesAll (match dlookup (dsetdefault d k₀ (.dict [])) k₀ with
      | some (.dict _) => dsetdefault d k₀ (.dict [])
      | _ => dset (dsetdefault d k₀ (.dict [])) k₀ (.dict [])) k v
    split
    · exact entriesAll_dsetdefault_other k₀ _ h hall
    · exact entriesAll_dset_other k₀ _ h (entriesAll_dsetdefault_other k₀ _ h hall)

theorem entriesAll_foldl_applyFix {specs : List FieldFix} {d : Dict} {k : String} {v : PyVal}
    (h : k ∉ specs.map FieldFix.key) (hall : EntriesAll d k v) :
    EntriesAll (specs.foldl applyFix d) k v := by
  induction specs generalizing d with
  | nil => exact hall
  | cons f rest ih =>
    simp only [List.map_cons, List.mem_cons, not_or] at h
    rw [List.foldl_cons]
    exact ih h.2 (entriesAll_applyFix_other f (fun he => h.1 he.symm) hall)

/-! ## Theorems: lookup preservation through normalization
(for reasoning about states that contain symbolic values) -/

theorem normSpecs_keys_nodup : (normSpecs.map FieldFix.key).Nodup := by decide

theorem tenant_id_notin_normSpecs : "tenant_id" ∉ normSpecs.map FieldFix.key := by decide

theorem user_id_notin_normSpecs : "user_id" ∉ normSpecs.map FieldFix.key := by decide

theorem is_guest_notin_normSpecs : "is_guest" ∉ normSpecs.map FieldFix.key := by decide

theorem applyFix_lookup_some_preserved (f : FieldFix) (d : Dict) (k : String) (v : PyVal)
    (hf : f.key ≠ k ∨ f.isPlain = true) (h : dlookup d k = some v) :
    dlookup (applyFix d f) k = some v := by
  cases f with
  | setdflt k₀ v₀ =>
    by_cases hk : k₀ = k
    · subst hk
      rw [show applyFix d (.setdflt k₀ v₀) = dsetdefault d k₀ v₀ from rfl,
        dlookup_dsetdefault_same, h]
      rfl
    · exact (dlookup_dsetdefault_other d k₀ k v₀ (fun he => hk he.symm)).trans h
  | setdfltList k₀ =>
    have hk : k₀ ≠ k ∨ True := by
      rcases hf with hf | hf
      · exact Or.inl hf
      · simp [FieldFix.isPlain] at hf
    by_cases hke : k₀ = k
    · subst hke
      rcases hf with hf | hf
      · exact absurd rfl hf
      · simp [FieldFix.isPlain] at hf
    · have hne : k ≠ (FieldFix.setdfltList k₀).key := by
        simp only [FieldFix.key]
        exact fun he => hke he.symm
      rw [applyFix_lookup_other d _ k hne]
      exact h
  | setdefDict k₀ =>
    by_cases hke : k₀ = k
    · subst hke
      rcases hf with hf | hf
      · exact absurd rfl hf
      · simp [FieldFix.isPlain] at hf
    · have hne : k ≠ (FieldFix.setdefDict k₀).key := by
        simp only [FieldFix.key]
        exact fun he => hke he.symm
      rw [applyFix_lookup_other d _ k hne]
      exact h

theorem applyFix_lookup_list_preserved (f : FieldFix) (d : Dict) (k : String)
    (xs : List PyVal) (hf : f.key ≠ k ∨ f.isDictFix = false)
    (h : dlookup d k = some (.list xs)) :
    dlookup (applyFix d f) k = some (.list xs) := by
  cases f with
  | setdflt k₀ v₀ =>
    exact applyFix_lookup_some_preserved _ d k _ (Or.inr rfl) h
  | setdfltList k₀ =>
    by_cases hke : k₀ = k
    · subst hke
      have hd1 : dsetdefault d k₀ (.list []) = d :=
        dsetdefault_of_isSome _ _ _ (by simp [h])
      show dlookup (match dlookup (dsetdefault d k₀ (.list [])) k₀ with
        | some (.list _) => dsetdefault d k₀ (.list [])
        | _ => dset (dsetdefault d k₀ (.list [])) k₀ (.list [])) k₀ = some (.list xs)
      rw [hd1, h]
      exact h
    · have hne : k ≠ (FieldFix.setdfltList k₀).key := by
        simp only [FieldFix.key]
        exact fun he => hke he.symm
      rw [applyFix_lookup_other d _ k hne]
      exact h
  | setdefDict k₀ =>
    by_cases hke : k₀ = k
    · subst hke
      rcases hf with hf | hf
      · exact absurd rfl hf
      · simp [FieldFix.isDictFix] at hf
    · have hne : k ≠ (FieldFix.setdefDict k₀).key := by
        simp only [FieldFix.key]
        exact fun he => hke he.symm
      rw [applyFix_lookup_other d _ k hne]
      exact h

theorem foldl_lookup_some_preserved (specs : List FieldFix) (d : Dict) (k : String)
    (v : PyVal) (hall : specs.all (fun f => (f.key != k) || f.isPlain) = true)
    (h : dlookup d k = some v) :
    dlookup (specs.foldl applyFix d) k = some v := by
  induction specs generalizing d with
  | nil => exact h
  | cons f rest ih =>
    rw [List.all_cons, Bool.and_eq_true] at hall
    rw [List.foldl_cons]
    refine ih (applyFix d f) hall.2 ?_
    refine applyFix_lookup_some_preserved f d k v ?_ h
    rcases Bool.or_eq_true _ _ |>.mp hall.1 with h1 | h2
    · exact Or.inl (by simpa using h1)
    · exact Or.inr h2

theorem foldl_lookup_list_preserved (specs : List FieldFix) (d : Dict) (k : String)
    (xs : List PyVal)
    (hall : specs.all (fun f => (f.key != k) || !f.isDictFix) = true)
    (h : dlookup d k = some (.list xs)) :
    dlookup (specs.foldl applyFix d) k = some (.list xs) := by
  induction specs generalizing d with
  | nil => exact h
  | cons f rest ih =>
    rw [List.all_cons, Bool.and_eq_true] at hall
    rw [List.foldl_cons]
    refine ih (applyFix d f) hall.2 ?_
    refine applyFix_lookup_list_preserved f d k xs ?_ h
    rcases Bool.or_eq_true _ _ |>.mp hall.1 with h1 | h2
    · exact Or.inl (by simpa using h1)
    · exact Or.inr (by simpa using h2)

theorem dlookup_idFix_other (s : Dict) (k : String) (h1 : k ≠ "tenant_id")
    (h2 : k ≠ "user_id") (h3 : k ≠ "is_guest") :
    dlookup (idFix s) k = dlookup s k := by
  unfold idFix
  rw [dlookup_dset_other _ _ _ _ h3, dlookup_dsetdefault_other _ _ _ _ h2,
    dlookup_dsetdefault_other _ _ _ _ h1]

theorem dlookup_normalize_some (s : Dict) (k : String) (v : PyVal)
    (h1 : k ≠ "tenant_id") (h2 : k ≠ "user_id") (h3 : k ≠ "is_guest")
    (hall : normSpecs.all (fun f => (f.key != k) || f.isPlain) = true)
    (h : dlookup s k = some v) :
    dlookup (normalize_state s) k = some v := by
  unfold normalize_state
  refine foldl_lookup_some_preserved _ _ _ _ hall ?_
  rw [dlookup_idFix_other s k h1 h2 h3]
  exact h

theorem dlookup_normalize_list (s : Dict) (k : String) (xs : List PyVal)
    (h1 : k ≠ "tenant_id") (h2 : k ≠ "user_id") (h3 : k ≠ "is_guest")
    (hall : normSpecs.all (fun f => (f.key != k) || !f.isDictFix) = true)
    (h : dlookup s k = some (.list xs)) :
    dlookup (normalize_state s) k = some (.list xs) := by
  unfold normalize_state
  refine foldl_lookup_list_preserved _ _ _ _ hall ?_
  rw [dlookup_idFix_other s k h1 h2 h3]
  exact h

theorem dlookup_ensure_metadata_other (st : Dict) (k : String) (h : k ≠ "metadata") :
    dlookup (ensure_metadata st) k = dlookup st k := by
  unfold ensure_metadata
  split
  · rfl
  · exact dlookup_dset_other _ _ _ _ h

theorem dlookup_ensure_errors_other (st : Dict) (k : String) (h : k ≠ "errors") :
    dlookup (ensure_errors st) k = dlookup st k := by
  unfold ensure_errors
  split
  · rfl
  · exact dlookup_dset_other _ _ _ _ h

theorem dlookup_ensure_intent_other (st : Dict) (k : String) (h1 : k ≠ "intent")
    (h2 : k ≠ "intent_confidence") :
    dlookup (ensure_intent st) k = dlookup st k := by
  unfold ensure_intent
  split
  · rw [dlookup_dset_other _ _ _ _ h2, dlookup_dset_other _ _ _ _ h1]
  · rw [dlookup_dset_other _ _ _ _ h2, dlookup_dset_other _ _ _ _ h1]
  · rfl

theorem dlookup_agentEntry_other (st : Dict) (k : String) (h1 : k ≠ "intent")
    (h2 : k ≠ "intent_confidence") (h3 : k ≠ "errors") (h4 : k ≠ "metadata") :
    dlookup (agentEntry st) k = dlookup (normalize_state st) k := by
  unfold agentEntry
  rw [dlookup_ensure_intent_other _ _ h1 h2, dlookup_ensure_errors_other _ _ h3,
    dlookup_ensure_metadata_other _ _ h4]

theorem foldl_setdef_default (specs : List FieldFix) (d : Dict) (k : String) (v : PyVal)
    (hnd : (specs.map FieldFix.key).Nodup) (hmem : FieldFix.setdflt k v ∈ specs)
    (h : dlookup d k = Option.none) :
    dlookup (specs.foldl applyFix d) k = some v := by
  induction specs generalizing d with
  | nil => cases hmem
  | cons g rest ih =>
    rw [List.map_cons, List.nodup_cons] at hnd
    rw [List.foldl_cons]
    rcases List.mem_cons.mp hmem with rfl | hmem'
    · have hk : k ∉ rest.map FieldFix.key := hnd.1
      rw [foldl_applyFix_lookup_notin rest _ _ hk]
      show dlookup (dsetdefault d k v) k = some v
      rw [dlookup_dsetdefault_same, h]
      rfl
    · have hgk : g.key ≠ k := by
        intro he
        exact hnd.1 (he ▸ List.mem_map.mpr ⟨_, hmem', rfl⟩)
      refine ih (applyFix d g) hnd.2 hmem' ?_
      rw [applyFix_lookup_other d g k (fun he => hgk he.symm)]
      exact h

theorem foldl_setdefList_default (specs : List FieldFix) (d : Dict) (k : String)
    (hnd : (specs.map FieldFix.key).Nodup) (hmem : FieldFix.setdfltList k ∈ specs)
    (h : dlookup d k = Option.none) :
    dlookup (specs.foldl applyFix d) k = some (.list []) := by
  induction specs generalizing d with
  | nil => cases hmem
  | cons g rest ih =>
    rw [List.map_cons, List.nodup_cons] at hnd
    rw [List.foldl_cons]
    rcases List.mem_cons.mp hmem with rfl | hmem'
    · have hk : k ∉ rest.map FieldFix.key := hnd.1
      rw [foldl_applyFix_lookup_notin rest _ _ hk]
      have hd1 : dlookup (dsetdefault d k (.list [])) k = some (.list []) := by
        rw [dlookup_dsetdefault_same, h]
        rfl
      show dlookup (match dlookup (dsetdefault d k (.list [])) k with
        | some (.list _) => dsetdefault d k (.list [])
        | _ => dset (dsetdefault d k (.list [])) k (.list [])) k = some (.list [])
      rw [hd1]
      exact hd1
    · have hgk : g.key ≠ k := by
        intro he
        exact hnd.1 (he ▸ List.mem_map.mpr ⟨_, hmem', rfl⟩)
      refine ih (applyFix d g) hnd.2 hmem' ?_
      rw [applyFix_lookup_other d g k (fun he => hgk he.symm)]
      exact h

theorem dlookup_normalize_default (s : Dict) (k : String) (v : PyVal)
    (h1 : k ≠ "tenant_id") (h2 : k ≠ "user_id") (h3 : k ≠ "is_guest")
    (hmem : FieldFix.setdflt k v ∈ normSpecs) (h : dlookup s k = Option.none) :
    dlookup (normalize_state s) k = some v := by
  unfold normalize_state
  refine foldl_setdef_default _ _ _ _ normSpecs_keys_nodup hmem ?_
  rw [dlookup_idFix_other s k h1 h2 h3]
  exact h

theorem dlookup_normalize_default_list (s : Dict) (k : String)
    (h1 : k ≠ "tenant_id") (h2 : k ≠ "user_id") (h3 : k ≠ "is_guest")
    (hmem : FieldFix.setdfltList k ∈ normSpecs) (h : dlookup s k = Option.none) :
    dlookup (normalize_state s) k = some (.list []) := by
  unfold normalize_state
  refine foldl_setdefList_default _ _ _ normSpecs_keys_nodup hmem ?_
  rw [dlookup_idFix_other s k h1 h2 h3]
  exact h

/-! ## Theorems: `normalize_state` idempotence and completeness -/

theorem idFix_tenant_isSome (s : Dict) :
    (dlookup (idFix s) "tenant_id").isSome = true := by
  unfold idFix
  rw [dlookup_dset_other _ _ _ _ (by decide),
    dlookup_dsetdefault_other _ _ _ _ (by decide),
    dlookup_dsetdefault_same]
  rfl

theorem idFix_user_isSome (s : Dict) :
    (dlookup (idFix s) "user_id").isSome = true := by
  unfold idFix
  rw [dlookup_dset_other _ _ _ _ (by decide), dlookup_dsetdefault_same]
  rfl

theorem idFix_is_guest (s : Dict) :
    ∃ v, dlookup (idFix s) "is_guest" = some v ∧ EntriesAll (idFix s) "is_guest" v := by
  unfold idFix
  exact ⟨_, dlookup_dset_same _ _ _, entriesAll_dset _ _ _⟩

theorem normalize_state_tenant_isSome (s : Dict) :
    (dlookup (normalize_state s) "tenant_id").isSome = true := by
  unfold normalize_state
  rw [foldl_applyFix_lookup_notin _ _ _ tenant_id_notin_normSpecs]
  exact idFix_tenant_isSome s

theorem normalize_state_user_isSome (s : Dict) :
    (dlookup (normalize_state s) "user_id").isSome = true := by
  unfold normalize_state
  rw [foldl_applyFix_lookup_notin _ _ _ user_id_notin_normSpecs]
  exact idFix_user_isSome s

theorem normalize_state_is_guest (s : Dict) :
    ∃ v, dlookup (normalize_state s) "is_guest" = some v
      ∧ EntriesAll (normalize_state s) "is_guest" v := by
  obtain ⟨v, hv, hall⟩ := idFix_is_guest s
  refine ⟨v, ?_, ?_⟩
  · unfold normalize_state
    rw [foldl_applyFix_lookup_notin _ _ _ is_guest_notin_normSpecs]
    exact hv
  · unfold normalize_state
    exact entriesAll_foldl_applyFix is_guest_notin_normSpecs hall

theorem normalize_state_established (s : Dict) :
    ∀ f ∈ normSpecs, Established (normalize_state s) f := by
  unfold normalize_state
  exact foldl_applyFix_establishes _ _ normSpecs_keys_nodup

theorem idFix_normalize_state (s : Dict) :
    idFix (normalize_state s) = normalize_state s := by
  obtain ⟨v, hv, hall⟩ := normalize_state_is_guest s
  have ht := normalize_state_tenant_isSome s
  have hu := normalize_state_user_isSome s
  show dset (dsetdefault (dsetdefault (normalize_state s) "tenant_id" (.str "default"))
      "user_id" (.str "guest")) "is_guest" _ = normalize_state s
  rw [dsetdefault_of_isSome _ _ _ ht, dsetdefault_of_isSome _ _ _ hu]
  simp only [dgetD, hv, Option.getD_some]
  exact dset_of_entriesAll hall (by rw [hv]; rfl)

theorem normalize_state_idem_aux (s : Dict) :
    normalize_state (normalize_state s) = normalize_state s := by
  have h1 : normalize_state (normalize_state s)
      = normSpecs.foldl applyFix (idFix (normalize_state s)) := rfl
  rw [h1, idFix_normalize_state s]
  exact foldl_applyFix_id _ _ (normalize_state_established s)

theorem normalize_state_all_keys (s : Dict) :
    documentedKeys.all (fun k => (dlookup (normalize_state s) k).isSome) = true := by
  rw [List.all_eq_true]
  intro k hk
  rw [documentedKeys] at hk
  rcases List.mem_append.mp hk with h3 | hmap
  · rcases List.mem_cons.mp h3 with rfl | h3
    · exact normalize_state_tenant_isSome s
    rcases List.mem_cons.mp h3 with rfl | h3
    · exact normalize_state_user_isSome s
    rcases List.mem_cons.mp h3 with rfl | h3
    · obtain ⟨v, hv, _⟩ := normalize_state_is_guest s
      simp [hv]
    · cases h3
  · obtain ⟨f, hf, rfl⟩ := List.mem_map.mp hmap
    exact (normalize_state_established s f hf).lookup_isSome

theorem normalize_state_list_field (s : Dict) (k : String)
    (hf : FieldFix.setdfltList k ∈ normSpecs) :
    ∃ xs, dlookup (normalize_state s) k = some (.list xs) :=
  normalize_state_established s _ hf

theorem normalize_state_dict_field (s : Dict) (k : String)
    (hf : FieldFix.setdefDict k ∈ normSpecs) :
    ∃ kvs, dlookup (normalize_state s) k = some (.dict kvs) :=
  normalize_state_established s _ hf

/-- C1 counterexample: `uploaded_doc_ids` is a list-typed documented field
of `OrchestratorState` (`List[str]`), yet `normalize_state` only applies
`setdefault` to it, so a state supplying it as the integer `7` comes out of
one normalization pass with `uploaded_doc_ids` still a non-list.  This
refutes the claim that after one application every list-typed field holds a
list. -/
theorem normalize_state_uploaded_doc_ids_cex :
    dlookup (normalize_state [("uploaded_doc_ids", .int 7)]) "uploaded_doc_ids"
      = some (.int 7)
    ∧ (PyVal.int 7).isList = false :=
  ⟨rfl, rfl⟩

/-- C1 (amended): `normalize_state` is idempotent, and after one pass every
documented field of the shared state is present; the five list fields
guarded by an `isinstance` check (`messages`, `chat_history`,
`uploaded_docs`, `workspace_documents`, `errors`) hold lists and the two
guarded map fields (`tool_outputs`, `metadata`) hold maps — but
`uploaded_doc_ids`, which has no `isinstance` guard, may retain a non-list
value supplied by the caller. -/
theorem normalize_state_idempotent_and_complete (s : Dict) :
    normalize_state (normalize_state s) = normalize_state s
    ∧ documentedKeys.all (fun k => (dlookup (normalize_state s) k).isSome) = true
    ∧ (∃ xs, dlookup (normalize_state s) "messages" = some (.list xs))
    ∧ (∃ xs, dlookup (normalize_state s) "chat_history" = some (.list xs))
    ∧ (∃ xs, dlookup (normalize_state s) "uploaded_docs" = some (.list xs))
    ∧ (∃ xs, dlookup (normalize_state s) "workspace_documents" = some (.list xs))
    ∧ (∃ xs, dlookup (normalize_state s) "errors" = some (.list xs))
    ∧ (∃ kvs, dlookup (normalize_state s) "tool_outputs" = some (.dict kvs))
    ∧ (∃ kvs, dlookup (normalize_state s) "metadata" = some (.dict kvs)) := by
  refine ⟨normalize_state_idem_aux s, normalize_state_all_keys s, ?_, ?_, ?_, ?_, ?_, ?_, ?_⟩
  · exact normalize_state_list_field s _
      (by repeat first | exact List.Mem.head _ | apply List.Mem.tail)
  · exact normalize_state_list_field s _
      (by repeat first | exact List.Mem.head _ | apply List.Mem.tail)
  · exact normalize_state_list_field s _
      (by repeat first | exact List.Mem.head _ | apply List.Mem.tail)
  · exact normalize_state_list_field s _
      (by repeat first | exact List.Mem.head _ | apply List.Mem.tail)
  · exact normalize_state_list_field s _
      (by repeat first | exact List.Mem.head _ | apply List.Mem.tail)
  · exact normalize_state_dict_field s _
      (by repeat first | exact List.Mem.head _ | apply List.Mem.tail)
  · exact normalize_state_dict_field s _
      (by repeat first | exact List.Mem.head _ | apply List.Mem.tail)

/-! ## Theorems: SQL agent branch and graph step lemmas -/

theorem runSqlSubgraph_succ (A : Nat) (ast : AstInfo) (gen : Except String String)
    (fuel : Nat) (st : Dict) (r : Nat) :
    runSqlSubgraph A ast gen (fuel + 1) st r
    = runSqlStep A ast gen (runSqlSubgraph A ast gen fuel) st r := rfl

theorem SQLAgent_execute_gen_ok (A : Nat) (ast : AstInfo) (sql : String) (st : Dict)
    (hg : (truthy (dgetD (agentEntry st) "approved" .none)
        && truthy (dgetD (agentEntry st) "generated_sql" .none)) = false) :
    SQLAgent_execute A ast (.ok sql) st
      = sqlGeneratedPathWith (SQLValidator_validate ast sql) (agentEntry st) sql := by
  simp only [SQLAgent_execute, hg, Bool.false_eq_true, if_false, sqlGeneratedPath]

theorem SQLAgent_execute_resume (A : Nat) (ast : AstInfo) (gen : Except String String)
    (st : Dict)
    (hg : (truthy (dgetD (agentEntry st) "approved" .none)
        && truthy (dgetD (agentEntry st) "generated_sql" .none)) = true) :
    SQLAgent_execute A ast gen st = sqlApprovedPath (agentEntry st) := by
  simp only [SQLAgent_execute, hg, if_true]

theorem sqlGeneratedPathWith_flagged (v : VResult) (st : Dict) (sql : String)
    (hv : v.requires_approval = true) :
    sqlGeneratedPathWith v st sql
    = dset (dset (dset (dset (dset (dset st "generated_sql" (.str sql))
        "sql_validation_result" (.dict
          [("is_safe", .bool v.is_safe),
           ("risk_level", .str v.risk_level),
           ("issues", .list (v.issues.map PyVal.str)),
           ("requires_approval", .bool v.requires_approval)]))
        "approval_required" (.bool true))
        "approval_reason" (.str ("SQL validation issues: "
          ++ String.intercalate ", " v.issues)))
        "risk_level" (.str v.risk_level))
        "execution_status" (.str "requires_approval") := by
  simp only [sqlGeneratedPathWith, hv, if_true]

theorem runSqlStep_approval_end (A : Nat) (ast : AstInfo) (gen : Except String String)
    (rec : Dict → Nat → Option (Dict × Nat)) (st : Dict) (r : Nat)
    (h1 : route_after_agent (SQLAgent_execute A ast gen (normalize_state st))
      = "approval_gate")
    (h2 : route_after_approval (approval_gate_node
      (SQLAgent_execute A ast gen (normalize_state st))) ≠ "sql_agent") :
    runSqlStep A ast gen rec st r
      = some (approval_gate_node (SQLAgent_execute A ast gen (normalize_state st)), r) := by
  unfold runSqlStep
  rewrite [h1]
  show (if route_after_approval (approval_gate_node
      (SQLAgent_execute A ast gen (normalize_state st))) = "sql_agent"
    then rec (approval_gate_node (SQLAgent_execute A ast gen (normalize_state st))) r
    else some (approval_gate_node (SQLAgent_execute A ast gen (normalize_state st)), r)) = _
  rewrite [if_neg h2]
  rfl

theorem runSqlStep_direct_end (A : Nat) (ast : AstInfo) (gen : Except String String)
    (rec : Dict → Nat → Option (Dict × Nat)) (st : Dict) (r : Nat)
    (h1 : route_after_agent (SQLAgent_execute A ast gen (normalize_state st)) = "end") :
    runSqlStep A ast gen rec st r
      = some (SQLAgent_execute A ast gen (normalize_state st), r) := by
  unfold runSqlStep
  rewrite [h1]
  rfl

/-! ## Theorems: behaviour of a flagged generation followed by the
approval gate, for a symbolic artifact -/

theorem flagged_run_facts (sql : String) (N D : Dict) (v : VResult)
    (hv : v.requires_approval = true)
    (hD : D = sqlGeneratedPathWith v N sql)
    (nA : dlookup N "approved" = some (.bool false))
    (nM : dlookup N "messages" = some (.list []))
    (nR : dlookup N "execution_result" = some PyVal.none) :
    route_after_agent D = "approval_gate"
    ∧ route_after_approval (approval_gate_node D) = "end"
    ∧ dlookup (approval_gate_node D) "execution_status" = some (.str "requires_approval")
    ∧ dlookup (approval_gate_node D) "execution_result" = some PyVal.none
    ∧ dlookup (approval_gate_node D) "generated_sql" = some (.str sql)
    ∧ dlookup (approval_gate_node D) "requires_human_input" = some (.bool true)
    ∧ lastMessage (approval_gate_node D) = Option.none := by
  rw [sqlGeneratedPathWith_flagged v N sql hv] at hD
  have dS : dlookup D "execution_status" = some (.str "requires_approval") := by
    rewrite [hD]; exact dlookup_dset_same _ _ _
  have dAR : dlookup D "approval_required" = some (.bool true) := by
    rewrite [hD, dlookup_dset_other _ _ _ _ (by decide),
      dlookup_dset_other _ _ _ _ (by decide), dlookup_dset_other _ _ _ _ (by decide)]
    exact dlookup_dset_same _ _ _
  have dApproved : dlookup D "approved" = some (.bool false) := by
    rewrite [hD, dlookup_dset_other _ _ _ _ (by decide),
      dlookup_dset_other _ _ _ _ (by decide), dlookup_dset_other _ _ _ _ (by decide),
      dlookup_dset_other _ _ _ _ (by decide), dlookup_dset_other _ _ _ _ (by decide),
      dlookup_dset_other _ _ _ _ (by decide)]
    exact nA
  have dG : dlookup D "generated_sql" = some (.str sql) := by
    rewrite [hD, dlookup_dset_other _ _ _ _ (by decide),
      dlookup_dset_other _ _ _ _ (by decide), dlookup_dset_other _ _ _ _ (by decide),
      dlookup_dset_other _ _ _ _ (by decide), dlookup_dset_other _ _ _ _ (by decide)]
    exact dlookup_dset_same _ _ _
  have dRes : dlookup D "execution_result" = some PyVal.none := by
    rewrite [hD, dlookup_dset_other _ _ _ _ (by decide),
      dlookup_dset_other _ _ _ _ (by decide), dlookup_dset_other _ _ _ _ (by decide),
      dlookup_dset_other _ _ _ _ (by decide), dlookup_dset_other _ _ _ _ (by decide),
      dlookup_dset_other _ _ _ _ (by decide)]
    exact nR
  have dMsg : dlookup D "messages" = some (.list []) := by
    rewrite [hD, dlookup_dset_other _ _ _ _ (by decide),
      dlookup_dset_other _ _ _ _ (by decide), dlookup_dset_other _ _ _ _ (by decide),
      dlookup_dset_other _ _ _ _ (by decide), dlookup_dset_other _ _ _ _ (by decide),
      dlookup_dset_other _ _ _ _ (by decide)]
    exact nM
  have hroute1 : route_after_agent D = "approval_gate" := by
    unfold route_after_agent
    rewrite [dgetD, dAR, dgetD, dApproved]
    rfl
  have n2A : dlookup (normalize_state D) "approved" = some (.bool false) :=
    dlookup_normalize_some _ _ _ (by decide) (by decide) (by decide) (by decide) dApproved
  have hGate : approval_gate_node D
      = dset (dset (dset (normalize_state D) "execution_status" (.str "requires_approval"))
          "requires_human_input" (.bool true)) "should_continue" (.bool false) := by
    unfold approval_gate_node
    rewrite [dgetD, n2A, Option.getD_some]
    rewrite [show truthy (.bool false) = false from rfl]
    rewrite [if_neg (show ¬ (false = true) by decide)]
    rfl
  have gApproved : dlookup (approval_gate_node D) "approved" = some (.bool false) := by
    rewrite [hGate, dlookup_dset_other _ _ _ _ (by decide),
      dlookup_dset_other _ _ _ _ (by decide), dlookup_dset_other _ _ _ _ (by decide)]
    exact n2A
  have hroute2 : route_after_approval (approval_gate_node D) = "end" := by
    unfold route_after_approval
    rewrite [dgetD, gApproved]
    rfl
  have gS : dlookup (approval_gate_node D) "execution_status"
      = some (.str "requires_approval") := by
    rewrite [hGate, dlookup_dset_other _ _ _ _ (by decide),
      dlookup_dset_other _ _ _ _ (by decide)]
    exact dlookup_dset_same _ _ _
  have gRes : dlookup (approval_gate_node D) "execution_result" = some PyVal.none := by
    rewrite [hGate, dlookup_dset_other _ _ _ _ (by decide),
      dlookup_dset_other _ _ _ _ (by decide), dlookup_dset_other _ _ _ _ (by decide)]
    exact dlookup_normalize_some _ _ _ (by decide) (by decide) (by decide) (by decide) dRes
  have gG : dlookup (approval_gate_node D) "generated_sql" = some (.str sql) := by
    rewrite [hGate, dlookup_dset_other _ _ _ _ (by decide),
      dlookup_dset_other _ _ _ _ (by decide), dlookup_dset_other _ _ _ _ (by decide)]
    exact dlookup_normalize_some _ _ _ (by decide) (by decide) (by decide) (by decide) dG
  have gH : dlookup (approval_gate_node D) "requires_human_input" = some (.bool true) := by
    rewrite [hGate, dlookup_dset_other _ _ _ _ (by decide)]
    exact dlookup_dset_same _ _ _
  have gLast : lastMessage (approval_gate_node D) = Option.none := by
    unfold lastMessage
    have gM : dlookup (approval_gate_node D) "messages" = some (.list []) := by
      rewrite [hGate, dlookup_dset_other _ _ _ _ (by decide),
        dlookup_dset_other _ _ _ _ (by decide), dlookup_dset_other _ _ _ _ (by decide)]
      exact dlookup_normalize_list _ _ _ (by decide) (by decide) (by decide) (by decide) dMsg
    rewrite [gM]
    rfl
  exact ⟨hroute1, hroute2, gS, gRes, gG, gH, gLast⟩

/-! ## Theorems: behaviour of the approved-resume branch, for a symbolic
artifact -/

theorem execute_sql_mock (st : Dict) (sqlv : PyVal)
    (h : truthy (dgetD st "db_connection" .none) = true) :
    execute_sql st sqlv = "[Mock] Executed query: " ++ pyStr sqlv
      ++ "\n[In production, this would execute against the database]" := by
  unfold execute_sql
  rewrite [h]
  rfl

theorem appendMessage_eq (st : Dict) (m : PyVal) (xs : List PyVal)
    (h : dlookup st "messages" = some (.list xs)) :
    appendMessage st m = dset st "messages" (.list (xs ++ [m])) := by
  unfold appendMessage
  rewrite [h]
  rfl

theorem lastMessage_dset_concat (st : Dict) (xs : List PyVal) (m : PyVal) :
    lastMessage (dset st "messages" (.list (xs ++ [m]))) = some m := by
  unfold lastMessage
  rewrite [dlookup_dset_same]
  show (xs ++ [m]).getLast? = some m
  rewrite [List.getLast?_append_cons]
  rfl

theorem approved_run_facts (N D : Dict) (sqlv dbv : PyVal) (ms : List PyVal)
    (hD : D = sqlApprovedPath N)
    (nG : dlookup N "generated_sql" = some sqlv)
    (nDb : dlookup N "db_connection" = some dbv)
    (hdb : truthy dbv = true)
    (nM : dlookup N "messages" = some (.list ms))
    (nAR : dlookup N "approval_required" = some (.bool true))
    (nA : dlookup N "approved" = some (.bool true))
    (nSC : dlookup N "should_continue" = some (.bool false)) :
    route_after_agent D = "end"
    ∧ dlookup D "execution_status" = some (.str "completed")
    ∧ dlookup D "execution_result" = some (.str ("[Mock] Executed query: " ++ pyStr sqlv
        ++ "\n[In production, this would execute against the database]"))
    ∧ lastMessageApprovedMark D = some (.bool true) := by
  have hAP : sqlApprovedPath N
      = appendMessage (dset (dset (dset (dset (dset N "execution_status" (.str "executing"))
          "execution_result"
            (.str (execute_sql (dset N "execution_status" (.str "executing")) sqlv)))
          "execution_status" (.str "completed"))
          "final_answer" (.str ("Query executed successfully (Approved):\n\n```sql\n"
            ++ pyStr sqlv ++ "\n```\n\nResults:\n"
            ++ execute_sql (dset N "execution_status" (.str "executing")) sqlv)))
          "confidence_score" (.rat (19 / 20)))
        (.dict [("role", .str "assistant"),
          ("content", .str ("Query executed successfully (Approved):\n\n```sql\n"
            ++ pyStr sqlv ++ "\n```\n\nResults:\n"
            ++ execute_sql (dset N "execution_status" (.str "executing")) sqlv)),
          ("metadata", .dict
            [("agent", .str "sql"), ("sql", sqlv), ("approved", .bool true)])]) := by
    simp only [sqlApprovedPath]
    rewrite [dgetD, nG, Option.getD_some]
    rfl
  have hMsgs : dlookup (dset (dset (dset (dset (dset N "execution_status" (.str "executing"))
      "execution_result" (.str (execute_sql (dset N "execution_status" (.str "executing")) sqlv)))
      "execution_status" (.str "completed"))
      "final_answer" (.str ("Query executed successfully (Approved):\n\n```sql\n"
        ++ pyStr sqlv ++ "\n```\n\nResults:\n"
        ++ execute_sql (dset N "execution_status" (.str "executing")) sqlv)))
      "confidence_score" (.rat (19 / 20))) "messages" = some (.list ms) := by
    rewrite [dlookup_dset_other _ _ _ _ (by decide), dlookup_dset_other _ _ _ _ (by decide),
      dlookup_dset_other _ _ _ _ (by decide), dlookup_dset_other _ _ _ _ (by decide),
      dlookup_dset_other _ _ _ _ (by decide)]
    exact nM
  rw [hAP, appendMessage_eq _ _ _ hMsgs] at hD
  have hR : execute_sql (dset N "execution_status" (.str "executing")) sqlv
      = "[Mock] Executed query: " ++ pyStr sqlv
        ++ "\n[In production, this would execute against the database]" := by
    refine execute_sql_mock _ _ ?_
    rewrite [dgetD, dlookup_dset_other _ _ _ _ (by decide), nDb, Option.getD_some]
    exact hdb
  have dS : dlookup D "execution_status" = some (.str "completed") := by
    rewrite [hD, dlookup_dset_other _ _ _ _ (by decide),
      dlookup_dset_other _ _ _ _ (by decide), dlookup_dset_other _ _ _ _ (by decide)]
    exact dlookup_dset_same _ _ _
  have dRes : dlookup D "execution_result" = some (.str ("[Mock] Executed query: "
      ++ pyStr sqlv ++ "\n[In production, this would execute against the database]")) := by
    rewrite [hD, dlookup_dset_other _ _ _ _ (by decide),
      dlookup_dset_other _ _ _ _ (by decide), dlookup_dset_other _ _ _ _ (by decide),
      dlookup_dset_other _ _ _ _ (by decide), dlookup_dset_same, hR]
    rfl
  have dAR : dlookup D "approval_required" = some (.bool true) := by
    rewrite [hD, dlookup_dset_other _ _ _ _ (by decide),
      dlookup_dset_other _ _ _ _ (by decide), dlookup_dset_other _ _ _ _ (by decide),
      dlookup_dset_other _ _ _ _ (by decide), dlookup_dset_other _ _ _ _ (by decide),
      dlookup_dset_other _ _ _ _ (by decide)]
    exact nAR
  have dA : dlookup D "approved" = some (.bool true) := by
    rewrite [hD, dlookup_dset_other _ _ _ _ (by decide),
      dlookup_dset_other _ _ _ _ (by decide), dlookup_dset_other _ _ _ _ (by decide),
      dlookup_dset_other _ _ _ _ (by decide), dlookup_dset_other _ _ _ _ (by decide),
      dlookup_dset_other _ _ _ _ (by decide)]
    exact nA
  have dSC : dlookup D "should_continue" = some (.bool false) := by
    rewrite [hD, dlookup_dset_other _ _ _ _ (by decide),
      dlookup_dset_other _ _ _ _ (by decide), dlookup_dset_other _ _ _ _ (by decide),
      dlookup_dset_other _ _ _ _ (by decide), dlookup_dset_other _ _ _ _ (by decide),
      dlookup_dset_other _ _ _ _ (by decide)]
    exact nSC
  have hroute : route_after_agent D = "end" := by
    unfold route_after_agent
    rewrite [dgetD, dAR, dgetD, dA, dgetD, dSC]
    rewrite [Option.getD_some, Option.getD_some]
    rewrite [show truthy (.bool true) = true from rfl]
    rewrite [show (true && !true) = false from rfl]
    rewrite [if_neg (show ¬ (false = true) by decide)]
    rewrite [show truthy (.bool false) = false from rfl, Bool.false_and]
    rewrite [if_neg (show ¬ (false = true) by decide)]
    rfl
  have dMark : lastMessageApprovedMark D = some (.bool true) := by
    unfold lastMessageApprovedMark
    rewrite [hD, lastMessage_dset_concat]
    rfl
  exact ⟨hroute, dS, dRes, dMark⟩

/-! ## Theorems: the approval round-trip (C4) -/

theorem approvalFirstRun_guard :
    (truthy (dgetD (agentEntry (normalize_state approvalFirstRunState)) "approved" .none)
      && truthy (dgetD (agentEntry (normalize_state approvalFirstRunState))
          "generated_sql" .none)) = false := rfl

theorem approvalResume_lookup_approved (sql : String) :
    dlookup (agentEntry (normalize_state (approvalResumeState sql))) "approved"
      = some (.bool true) := by
  rewrite [dlookup_agentEntry_other (normalize_state (approvalResumeState sql)) "approved" (by decide) (by decide) (by decide) (by decide)]
  refine dlookup_normalize_some (normalize_state (approvalResumeState sql)) "approved" (.bool true)
    (by decide) (by decide) (by decide) (by decide) ?_
  refine dlookup_normalize_some (approvalResumeState sql) "approved" (.bool true)
    (by decide) (by decide) (by decide) (by decide) ?_
  rfl

theorem approvalResume_lookup_sql (sql : String) :
    dlookup (agentEntry (normalize_state (approvalResumeState sql))) "generated_sql"
      = some (.str sql) := by
  rewrite [dlookup_agentEntry_other (normalize_state (approvalResumeState sql)) "generated_sql" (by decide) (by decide) (by decide) (by decide)]
  refine dlookup_normalize_some (normalize_state (approvalResumeState sql)) "generated_sql" (.str sql)
    (by decide) (by decide) (by decide) (by decide) ?_
  refine dlookup_normalize_some (approvalResumeState sql) "generated_sql" (.str sql)
    (by decide) (by decide) (by decide) (by decide) ?_
  rfl

theorem approvalResume_lookup_db (sql : String) :
    dlookup (agentEntry (normalize_state (approvalResumeState sql))) "db_connection"
      = some (.str "sqlite:///demo.db") := by
  rewrite [dlookup_agentEntry_other (normalize_state (approvalResumeState sql)) "db_connection" (by decide) (by decide) (by decide) (by decide)]
  refine dlookup_normalize_some (normalize_state (approvalResumeState sql)) "db_connection" (.str "sqlite:///demo.db")
    (by decide) (by decide) (by decide) (by decide) ?_
  refine dlookup_normalize_some (approvalResumeState sql) "db_connection"
    (.str "sqlite:///demo.db") (by decide) (by decide) (by decide) (by decide) ?_
  rfl

theorem approvalResume_lookup_ar (sql : String) :
    dlookup (agentEntry (normalize_state (approvalResumeState sql))) "approval_required"
      = some (.bool true) := by
  rewrite [dlookup_agentEntry_other (normalize_state (approvalResumeState sql)) "approval_required" (by decide) (by decide) (by decide) (by decide)]
  refine dlookup_normalize_some (normalize_state (approvalResumeState sql)) "approval_required" (.bool true)
    (by decide) (by decide) (by decide) (by decide) ?_
  refine dlookup_normalize_some (approvalResumeState sql) "approval_required" (.bool true)
    (by decide) (by decide) (by decide) (by decide) ?_
  rfl

theorem approvalResume_lookup_messages (sql : String) :
    dlookup (agentEntry (normalize_state (approvalResumeState sql))) "messages"
      = some (.list []) := by
  rewrite [dlookup_agentEntry_other (normalize_state (approvalResumeState sql)) "messages" (by decide) (by decide) (by decide) (by decide)]
  refine dlookup_normalize_list (normalize_state (approvalResumeState sql)) "messages" []
    (by decide) (by decide) (by decide) (by decide) ?_
  refine dlookup_normalize_default_list (approvalResumeState sql) "messages"
    (by decide) (by decide) (by decide)
    (by repeat first | exact List.Mem.head _ | apply List.Mem.tail) ?_
  rfl

theorem approvalResume_lookup_sc (sql : String) :
    dlookup (agentEntry (normalize_state (approvalResumeState sql))) "should_continue"
      = some (.bool false) := by
  rewrite [dlookup_agentEntry_other (normalize_state (approvalResumeState sql)) "should_continue" (by decide) (by decide) (by decide) (by decide)]
  refine dlookup_normalize_some (normalize_state (approvalResumeState sql)) "should_continue"
    (.bool false) (by decide) (by decide) (by decide) (by decide) ?_
  refine dlookup_normalize_default (approvalResumeState sql) "should_continue" (.bool false)
    (by decide) (by decide) (by decide)
    (by repeat first | exact List.Mem.head _ | apply List.Mem.tail) ?_
  rfl

theorem approvalResume_guard (sql : String) (h2 : sql ≠ "") :
    (truthy (dgetD (agentEntry (normalize_state (approvalResumeState sql))) "approved" .none)
      && truthy (dgetD (agentEntry (normalize_state (approvalResumeState sql)))
          "generated_sql" .none)) = true := by
  rewrite [dgetD, approvalResume_lookup_approved, dgetD, approvalResume_lookup_sql,
    Option.getD_some, Option.getD_some]
  rewrite [show truthy (.bool true) = true from rfl]
  have hs : truthy (.str sql) = true := by
    simp [truthy, h2]
  rewrite [hs]
  rfl

/-- C4: approval round-trip.  For every generated SQL artifact that the
validator flags as requiring approval: the first run of the sql handler
terminates (via the approval gate) with execution status
"requires_approval", with nothing executed (`execution_result` still null,
no assistant message), the artifact stored in `generated_sql`, and
`requires_human_input` set; a subsequent run entered with `approved = true`
and the same artifact in `generated_sql` terminates in one pass with status
"completed", an execution result for exactly that artifact, and the final
assistant message's metadata carrying `approved: True` — and its outcome is
the same for every generation outcome `gen`, i.e. the artifact is not
regenerated. -/
theorem approval_round_trip (sql : String) (ast : AstInfo)
    (h1 : (SQLValidator_validate ast sql).requires_approval = true)
    (h2 : sql ≠ "") :
    ((runSqlSubgraph 3 ast (.ok sql) 20 approvalFirstRunState 0).map
      (fun p => (dlookup p.1 "execution_status", dlookup p.1 "execution_result",
        dlookup p.1 "generated_sql", dlookup p.1 "requires_human_input",
        lastMessage p.1, p.2))
      = some (some (.str "requires_approval"), some PyVal.none, some (.str sql),
          some (.bool true), Option.none, 0))
    ∧ ∀ gen : Except String String,
      (runSqlSubgraph 3 ast gen 20 (approvalResumeState sql) 0).map
        (fun p => (dlookup p.1 "execution_status", dlookup p.1 "execution_result",
          lastMessageApprovedMark p.1, p.2))
      = some (some (.str "completed"),
          some (.str ("[Mock] Executed query: " ++ sql
            ++ "\n[In production, this would execute against the database]")),
          some (.bool true), 0) := by
  constructor
  · have hD := SQLAgent_execute_gen_ok 3 ast sql (normalize_state approvalFirstRunState)
      approvalFirstRun_guard
    obtain ⟨f1, f2, f3, f4, f5, f6, f7⟩ := flagged_run_facts sql
      (agentEntry (normalize_state approvalFirstRunState))
      (SQLAgent_execute 3 ast (.ok sql) (normalize_state approvalFirstRunState))
      (SQLValidator_validate ast sql) h1 hD rfl rfl rfl
    rewrite [show (20 : Nat) = 19 + 1 from rfl, runSqlSubgraph_succ,
      runSqlStep_approval_end _ _ _ _ _ _ f1 (by rewrite [f2]; decide)]
    simp only [Option.map_some']
    rewrite [f3, f4, f5, f6, f7]
    rfl
  · intro gen
    have hD := SQLAgent_execute_resume 3 ast gen
      (normalize_state (approvalResumeState sql)) (approvalResume_guard sql h2)
    obtain ⟨f1, f2, f3, f4⟩ := approved_run_facts
      (agentEntry (normalize_state (approvalResumeState sql)))
      (SQLAgent_execute 3 ast gen (normalize_state (approvalResumeState sql)))
      (.str sql) (.str "sqlite:///demo.db") [] hD
      (approvalResume_lookup_sql sql) (approvalResume_lookup_db sql) rfl
      (approvalResume_lookup_messages sql) (approvalResume_lookup_ar sql)
      (approvalResume_lookup_approved sql) (approvalResume_lookup_sc sql)
    rewrite [show (20 : Nat) = 19 + 1 from rfl, runSqlSubgraph_succ,
      runSqlStep_direct_end _ _ _ _ _ _ f1]
    simp only [Option.map_some']
    rewrite [f2, f3, f4]
    rfl

/-- Witness for C4 at the concrete risky artifact `DROP TABLE users`:
both hypotheses hold and both runs behave as stated. -/
theorem approval_round_trip_witness :
    ((SQLValidator_validate astPlainSelect "DROP TABLE users").requires_approval = true)
    ∧ ("DROP TABLE users" ≠ "")
    ∧ ((runSqlSubgraph 3 astPlainSelect (.ok "DROP TABLE users") 20 approvalFirstRunState 0).map
        (fun p => (dlookup p.1 "execution_status", dlookup p.1 "execution_result",
          dlookup p.1 "generated_sql", dlookup p.1 "requires_human_input",
          lastMessage p.1, p.2))
        = some (some (.str "requires_approval"), some PyVal.none,
            some (.str "DROP TABLE users"), some (.bool true), Option.none, 0))
    ∧ ((runSqlSubgraph 3 astPlainSelect (.error "no generation")
          20 (approvalResumeState "DROP TABLE users") 0).map
        (fun p => (dlookup p.1 "execution_status", dlookup p.1 "execution_result",
          lastMessageApprovedMark p.1, p.2))
        = some (some (.str "completed"),
            some (.str ("[Mock] Executed query: DROP TABLE users"
              ++ "\n[In production, this would execute against the database]")),
            some (.bool true), 0)) :=
  ⟨rfl, by decide,
    (approval_round_trip "DROP TABLE users" astPlainSelect rfl (by decide)).1,
    (approval_round_trip "DROP TABLE users" astPlainSelect rfl (by decide)).2
      (.error "no generation")⟩

/-! ## Theorems: the retry protocol (C3) -/

/-- C3 counterexample: with `max_retries = 0` the run does terminate with
execution status "failed" on the first attempt, but its `final_answer` is
`None` — no failure message listing the accumulated errors is produced,
contrary to the claim; the single error is only in the errors list, and no
router-driven retry happened. -/
theorem retry_zero_no_failure_answer_cex :
    sqlRunSummary (runSqlSubgraph 3 astPlainSelect (.error "boom") 20
      (retryScenarioState 0) 0)
      = some (some (.str "failed"), some PyVal.none, 1, 0) := rfl

/-- C3 (amended): with the deployed agent-internal retry bound of 3 and a
handler whose generation raises deterministically, a run with caller-seeded
`max_retries = M ≤ 3` terminates with execution status "failed" after
`max M 1` handler attempts (each appending one error) and `M - 1`
router-driven retries — and `final_answer` is left `None`: the synthesized
failure message summarizing the errors is produced only by the agent's
internal bound, which the graph never lets it reach for these `M`. -/
theorem retry_loop_failed_without_answer (M : Nat) (hM : M ≤ 3) :
    sqlRunSummary (runSqlSubgraph 3 astPlainSelect (.error "boom") 20
      (retryScenarioState M) 0)
      = some (some (.str "failed"), some PyVal.none, max M 1, M - 1) := by
  interval_cases M
  · rfl
  · rfl
  · rfl
  · rfl

/-- Witness for C3 (amended) at `max_retries = 2`: two attempts, one
router-driven retry, status failed, no final answer. -/
theorem retry_loop_failed_without_answer_witness :
    2 ≤ 3
    ∧ sqlRunSummary (runSqlSubgraph 3 astPlainSelect (.error "boom") 20
        (retryScenarioState 2) 0)
      = some (some (.str "failed"), some PyVal.none, 2, 1) :=
  ⟨by decide, retry_loop_failed_without_answer 2 (by decide)⟩

/-! ## Theorems: the multi-statement check of the SQL validator (C7) -/

/-- C7 counterexample: `SELECT 1; SELECT 2` contains two statements but only
one semicolon, so `SQLValidator.validate` (whose multi-statement check is
`sql.count(';') > 1`) reports risk "low", records no multiple-statements
issue, and requires no approval.  The `sqlparse` oracle is instantiated at
its behaviour on plain SELECT statements. -/
theorem validate_two_statements_low_risk_cex :
    specStatementCount "SELECT 1; SELECT 2" = 2
    ∧ (SQLValidator_validate astPlainSelect "SELECT 1; SELECT 2").risk_level = "low"
    ∧ (SQLValidator_validate astPlainSelect "SELECT 1; SELECT 2").requires_approval = false
    ∧ "Multiple statements detected"
        ∉ (SQLValidator_validate astPlainSelect "SELECT 1; SELECT 2").issues :=
  ⟨rfl, rfl, rfl, by decide⟩

/-- C7 (amended): for every SQL string containing more than one semicolon
(the source's notion of multi-statement input) and any `sqlparse` outcome,
the validator reports risk "high", records the multiple-statements issue,
and requires approval. -/
theorem validate_multi_semicolon_high_risk (ast : AstInfo) (sql : String)
    (h : countChar sql ';' > 1) :
    (SQLValidator_validate ast sql).risk_level = "high"
    ∧ "Multiple statements detected" ∈ (SQLValidator_validate ast sql).issues
    ∧ (SQLValidator_validate ast sql).requires_approval = true := by
  refine ⟨?_, ?_, ?_⟩ <;>
    simp [SQLValidator_validate, h, List.mem_append]

/-- Witness for C7 (amended) at `SELECT 1; SELECT 2;` (two semicolons). -/
theorem validate_multi_semicolon_high_risk_witness :
    countChar "SELECT 1; SELECT 2;" ';' > 1
    ∧ (SQLValidator_validate astPlainSelect "SELECT 1; SELECT 2;").risk_level = "high"
    ∧ "Multiple statements detected"
        ∈ (SQLValidator_validate astPlainSelect "SELECT 1; SELECT 2;").issues
    ∧ (SQLValidator_validate astPlainSelect "SELECT 1; SELECT 2;").requires_approval
        = true :=
  ⟨by decide,
    (validate_multi_semicolon_high_risk astPlainSelect "SELECT 1; SELECT 2;" (by decide)).1,
    (validate_multi_semicolon_high_risk astPlainSelect "SELECT 1; SELECT 2;" (by decide)).2.1,
    (validate_multi_semicolon_high_risk astPlainSelect "SELECT 1; SELECT 2;" (by decide)).2.2⟩

/-! ## Theorems: the routing decision (C5, C8) -/

theorem ensure_intent_noop (st : Dict) (v : PyVal)
    (h : dlookup st "intent" = some v) (hv : v ≠ PyVal.none) :
    ensure_intent st = st := by
  unfold ensure_intent
  rewrite [h]
  cases v with
  | none => exact absurd rfl hv
  | bool b => rfl
  | int n => rfl
  | rat q => rfl
  | str s => rfl
  | list xs => rfl
  | dict kvs => rfl

theorem ensure_metadata_dict (st : Dict) :
    ∃ md, dlookup (ensure_metadata st) "metadata" = some (.dict md) := by
  unfold ensure_metadata
  split
  · rename_i md heq
    exact ⟨md, heq⟩
  · exact ⟨[], dlookup_dset_same st "metadata" (.dict [])⟩

theorem racBody_str (st : Dict) (q : String)
    (h : dlookup st "user_query" = some (.str q)) :
    racBody st = racQuery st q := by
  unfold racBody
  rewrite [dgetD, h]
  rfl

theorem racQuery_kw (st : Dict) (q : String) (b : PyVal)
    (hkw : researchKeywords.any (fun kw => containsSub kw.data (pyLower q).data) = true)
    (hb : pyMax (dgetD st "intent_confidence" (.rat 0)) (3 / 4) = some b) :
    racQuery st q = racAfterOverride
      (setMetaKey (dset (dset st "intent" (.str "research"))
        "intent_confidence" b) "routing_override" (.str "keyword_based_research"))
      (.str "research") b q := by
  unfold racQuery
  rewrite [if_pos hkw, hb]
  rfl

theorem pyMax_of_asNum (cv : PyVal) (c : ℚ) (h : cv.asNum = some c) :
    ∃ b, pyMax cv (3 / 4) = some b ∧ b.asNum = some (max c (3 / 4)) := by
  unfold pyMax
  rewrite [h]
  by_cases hc : (3 / 4 : ℚ) ≤ c
  · refine ⟨cv, ?_, ?_⟩
    · show some (if (3 / 4 : ℚ) ≤ c then cv else PyVal.rat (3 / 4)) = some cv
      rewrite [if_pos hc]
      rfl
    · rewrite [max_eq_left hc]
      exact h
  · refine ⟨.rat (3 / 4), ?_, ?_⟩
    · show some (if (3 / 4 : ℚ) ≤ c then cv else PyVal.rat (3 / 4))
        = some (PyVal.rat (3 / 4))
      rewrite [if_neg hc]
      rfl
    · rewrite [max_eq_right (le_of_not_le hc)]
      rfl

theorem lowConfGuard_ok_false (iv cv : PyVal) (m : ℚ)
    (ht : truthy iv = true) (hne : pyEqStr iv "unknown" = false)
    (hm : cv.asNum = some m) (hge : ¬ m < 2 / 5) :
    lowConfGuard iv cv = .ok false := by
  unfold lowConfGuard
  rewrite [ht, hne, hm]
  show Except.ok (decide (m < 2 / 5)) = Except.ok false
  rewrite [decide_eq_false hge]
  rfl

theorem racQuery_nokw (st : Dict) (q : String)
    (hkw : researchKeywords.any (fun kw => containsSub kw.data (pyLower q).data)
      = false) :
    racQuery st q = racAfterOverride st (dgetD st "intent" (.str "unknown"))
      (dgetD st "intent_confidence" (.rat 0)) q := by
  unfold racQuery
  rewrite [hkw]
  rfl

theorem racAfterOverride_research (st : Dict) (b : PyVal) (q : String)
    (hg : lowConfGuard (.str "research") b = .ok false) :
    racAfterOverride st (.str "research") b q = .ok (st, "research_agent") := by
  unfold racAfterOverride
  rewrite [hg]
  rfl

theorem racAfterOverride_sql (st : Dict) (b : PyVal) (q : String)
    (hg : lowConfGuard (.str "sql") b = .ok false) :
    racAfterOverride st (.str "sql") b q = .ok (st, "sql_agent") := by
  unfold racAfterOverride
  rewrite [hg]
  rfl

theorem setMetaKey_eq (S : Dict) (md : Dict) (k : String) (v : PyVal)
    (h : dlookup S "metadata" = some (.dict md)) :
    setMetaKey S k v = dset S "metadata" (.dict (dset md k v)) := by
  unfold setMetaKey
  rewrite [dgetD, h]
  rfl

theorem dgetD_of_some (st : Dict) (k : String) (dflt v : PyVal)
    (h : dlookup st k = some v) : dgetD st k dflt = v := by
  rewrite [dgetD, h]
  rfl

/-- C5: the source's `_route_after_classification` promises "tenant
validation" but never consults the tenant policy it instantiates: for the
FREE-tier tenant "acme" with a confidently classified `sql` intent, the
router dispatches straight to `sql_agent` and records no denial in
metadata, even though `validate_request` denies exactly this (tenant,
query, intent) combination; no denied combination can ever reach a
graceful-fallback edge, refuting the claim. -/
theorem tenant_policy_not_consulted :
    racRoute (route_after_classification c5State) = some "sql_agent"
    ∧ racMetaKey (route_after_classification c5State) "blocked_reason" = Option.none
    ∧ is_agent_allowed initialConfigs "acme" "sql" = false
    ∧ validate_request initialConfigs "acme" "fetch all rows from the orders table" "sql"
        = (false, some "Agent \x27sql\x27 is not available for your tier (free)") := by
  have hrun : route_after_classification c5State = .ok (c5Ensured, "sql_agent") := by
    show racBody (ensure_intent (ensure_errors (ensure_metadata c5State))) = _
    have hE : ensure_intent (ensure_errors (ensure_metadata c5State)) = c5Ensured := by
      rfl
    rewrite [hE]
    rewrite [racBody_str c5Ensured "fetch all rows from the orders table" rfl]
    rewrite [racQuery_nokw c5Ensured "fetch all rows from the orders table" rfl]
    have hI : dgetD c5Ensured "intent" (.str "unknown") = .str "sql" := rfl
    have hC : dgetD c5Ensured "intent_confidence" (.rat 0) = .rat (9 / 10) := rfl
    rewrite [hI, hC]
    exact racAfterOverride_sql c5Ensured (.rat (9 / 10))
      "fetch all rows from the orders table"
      (lowConfGuard_ok_false (.str "sql") (.rat (9 / 10)) (9 / 10) rfl rfl rfl
        (by norm_num))
  refine ⟨?_, ?_, by rfl, by rfl⟩
  · rewrite [hrun]
    rfl
  · rewrite [hrun]
    rfl

/-- C8: any state whose string query contains a recency keyword, with a
classifier-produced intent label (present and non-null) and numeric
confidence, is dispatched to `research_agent` with intent forced to
`research`, confidence boosted to `max c 0.75 ≥ 0.75`, and the override
reason recorded in metadata. -/
theorem research_keyword_override (st : Dict) (q : String) (iv cv : PyVal) (c : ℚ)
    (hQ : dlookup st "user_query" = some (.str q))
    (hkw : researchKeywords.any (fun kw => containsSub kw.data (pyLower q).data) = true)
    (hI : dlookup st "intent" = some iv) (hIn : iv ≠ PyVal.none)
    (hc : dlookup st "intent_confidence" = some cv) (hcn : cv.asNum = some c) :
    racRoute (route_after_classification st) = some "research_agent"
    ∧ racIntent (route_after_classification st) = some (.str "research")
    ∧ racConfNum (route_after_classification st) = some (max c (3 / 4))
    ∧ (3 / 4 : ℚ) ≤ max c (3 / 4)
    ∧ racMetaKey (route_after_classification st) "routing_override"
        = some (.str "keyword_based_research") := by
  have hQ1 : dlookup (ensure_errors (ensure_metadata st)) "user_query"
      = some (.str q) := by
    rewrite [dlookup_ensure_errors_other (ensure_metadata st) "user_query" (by decide)]
    rewrite [dlookup_ensure_metadata_other st "user_query" (by decide)]
    exact hQ
  have hI1 : dlookup (ensure_errors (ensure_metadata st)) "intent" = some iv := by
    rewrite [dlookup_ensure_errors_other (ensure_metadata st) "intent" (by decide)]
    rewrite [dlookup_ensure_metadata_other st "intent" (by decide)]
    exact hI
  have hc1 : dlookup (ensure_errors (ensure_metadata st)) "intent_confidence"
      = some cv := by
    rewrite [dlookup_ensure_errors_other (ensure_metadata st) "intent_confidence"
      (by decide)]
    rewrite [dlookup_ensure_metadata_other st "intent_confidence" (by decide)]
    exact hc
  obtain ⟨md, hmd0⟩ := ensure_metadata_dict st
  have hmd1 : dlookup (ensure_errors (ensure_metadata st)) "metadata"
      = some (.dict md) := by
    rewrite [dlookup_ensure_errors_other (ensure_metadata st) "metadata" (by decide)]
    exact hmd0
  have hEI : ensure_intent (ensure_errors (ensure_metadata st))
      = ensure_errors (ensure_metadata st) :=
    ensure_intent_noop (ensure_errors (ensure_metadata st)) iv hI1 hIn
  obtain ⟨b, hb, hbn⟩ := pyMax_of_asNum cv c hcn
  have hb2 : pyMax (dgetD (ensure_errors (ensure_metadata st)) "intent_confidence"
      (.rat 0)) (3 / 4) = some b := by
    rewrite [dgetD_of_some (ensure_errors (ensure_metadata st)) "intent_confidence"
      (.rat 0) cv hc1]
    exact hb
  have hmdS : dlookup (dset (dset (ensure_errors (ensure_metadata st)) "intent"
      (.str "research")) "intent_confidence" b) "metadata" = some (.dict md) := by
    rewrite [dlookup_dset_other (dset (ensure_errors (ensure_metadata st)) "intent"
      (.str "research")) "intent_confidence" "metadata" b (by decide)]
    rewrite [dlookup_dset_other (ensure_errors (ensure_metadata st)) "intent"
      "metadata" (.str "research") (by decide)]
    exact hmd1
  have hrun : route_after_classification st
      = .ok (dset (dset (dset (ensure_errors (ensure_metadata st)) "intent"
          (.str "research")) "intent_confidence" b) "metadata"
          (.dict (dset md "routing_override" (.str "keyword_based_research"))),
        "research_agent") := by
    show racBody (ensure_intent (ensure_errors (ensure_metadata st))) = _
    rewrite [hEI]
    rewrite [racBody_str (ensure_errors (ensure_metadata st)) q hQ1]
    rewrite [racQuery_kw (ensure_errors (ensure_metadata st)) q b hkw hb2]
    rewrite [setMetaKey_eq (dset (dset (ensure_errors (ensure_metadata st)) "intent"
      (.str "research")) "intent_confidence" b) md "routing_override"
      (.str "keyword_based_research") hmdS]
    exact racAfterOverride_research _ b q
      (lowConfGuard_ok_false (.str "research") b (max c (3 / 4)) rfl rfl hbn
        (not_lt.mpr (le_trans (by norm_num) (le_max_right c (3 / 4)))))
  refine ⟨?_, ?_, ?_, le_max_right c (3 / 4), ?_⟩
  · rewrite [hrun]
    rfl
  · rewrite [hrun]
    show dlookup (dset _ "metadata" _) "intent" = _
    rewrite [dlookup_dset_other _ "metadata" "intent" _ (by decide)]
    rewrite [dlookup_dset_other _ "intent_confidence" "intent" b (by decide)]
    exact dlookup_dset_same (ensure_errors (ensure_metadata st)) "intent"
      (.str "research")
  · rewrite [hrun]
    show (dgetD (dset _ "metadata" _) "intent_confidence" PyVal.none).asNum = _
    rewrite [dgetD, dlookup_dset_other _ "metadata" "intent_confidence" _ (by decide)]
    rewrite [dlookup_dset_same (dset (ensure_errors (ensure_metadata st)) "intent"
      (.str "research")) "intent_confidence" b]
    exact hbn
  · rewrite [hrun]
    show (match dlookup (dset _ "metadata" (.dict (dset md "routing_override"
        (.str "keyword_based_research")))) "metadata" with
      | some (.dict m) => dlookup m "routing_override"
      | _ => Option.none) = _
    rewrite [dlookup_dset_same (dset (dset (ensure_errors (ensure_metadata st))
      "intent" (.str "research")) "intent_confidence" b) "metadata"
      (.dict (dset md "routing_override" (.str "keyword_based_research")))]
    show dlookup (dset md "routing_override" (.str "keyword_based_research"))
      "routing_override" = _
    exact dlookup_dset_same md "routing_override" (.str "keyword_based_research")

/-- Witness for C8 at a concrete chat-labelled high-confidence state whose
query is "what is the weather today". -/
theorem research_keyword_override_witness :
    (researchKeywords.any (fun kw =>
      containsSub kw.data (pyLower "what is the weather today").data) = true)
    ∧ (racRoute (route_after_classification c8State) = some "research_agent"
       ∧ racIntent (route_after_classification c8State) = some (.str "research")
       ∧ racConfNum (route_after_classification c8State)
           = some (max (99 / 100) (3 / 4))
       ∧ (3 / 4 : ℚ) ≤ max (99 / 100) (3 / 4)
       ∧ racMetaKey (route_after_classification c8State) "routing_override"
           = some (.str "keyword_based_research")) :=
  ⟨rfl, research_keyword_override c8State "what is the weather today"
    (.str "chat") (.rat (99 / 100)) (99 / 100) rfl rfl rfl
    (fun h => PyVal.noConfusion h) rfl rfl⟩

/-! ## Theorems: the LLM router (C6) -/

theorem mdOr_dict_dset (md : Dict) (k : String) (v : PyVal) :
    ∃ m, mdOr (.dict md) = .dict m ∧ dset m k v = dset md k v := by
  cases md with
  | nil => exact ⟨[], rfl, rfl⟩
  | cons h t => exact ⟨h :: t, rfl, rfl⟩

/-- C6: with fallback enabled, an exception of the primary backend matching
the 429/quota signal makes `invoke` call the secondary backend exactly once
and return its outcome; an exception not matching the signal propagates
unmodified with the state untouched and the secondary backend never
invoked. -/
theorem router_fallback_only_on_quota (pm fr : String) (e : PyException)
    (fb : Except PyException String) (st : Dict) (md : Dict)
    (hmd : dlookup st "metadata" = some (.dict md)) :
    (is_quota_exhausted_429 e = true →
      ∃ r, LLMRouter_invoke true pm fr (.error e) fb (some st) = .ok r
        ∧ r.fallbackCalls = 1 ∧ r.result = fb)
    ∧ (is_quota_exhausted_429 e = false →
      LLMRouter_invoke true pm fr (.error e) fb (some st)
        = .ok { result := .error e, state := some st, fallbackCalls := 0 }) := by
  have hg : dgetD st "metadata" PyVal.none = .dict md :=
    dgetD_of_some st "metadata" PyVal.none (.dict md) hmd
  constructor
  · intro hq
    cases fb with
    | ok resp =>
      obtain ⟨m, hm, hds⟩ := mdOr_dict_dset md "fallback_used" (.bool true)
      have hm2 : mdOr (dgetD st "metadata" PyVal.none) = .dict m := by
        rewrite [hg]
        exact hm
      have hEq : LLMRouter_invoke true pm fr (.error e) (.ok resp) (some st)
          = .ok { result := .ok resp,
                  state := some (dset (dset (dset st "model_used"
                    (.str ("huggingface:" ++ fr)))
                    "fallback_reason" (.str fallbackReasonMsg))
                    "metadata" (.dict (dset md "fallback_used" (.bool true)))),
                  fallbackCalls := 1 } := by
        show invokeOnError true fr e (.ok resp) (some st) = _
        unfold invokeOnError
        rewrite [hq]
        show invokeFallbackSome fr resp st = _
        unfold invokeFallbackSome
        rewrite [hm2, ← hds]
        rfl
      exact ⟨_, hEq, rfl, rfl⟩
    | error e2 =>
      refine ⟨{ result := .error e2, state := some st, fallbackCalls := 1 },
        ?_, rfl, rfl⟩
      show invokeOnError true fr e (.error e2) (some st) = _
      unfold invokeOnError
      rewrite [hq]
      rfl
  · intro hq
    show invokeOnError true fr e fb (some st) = _
    unfold invokeOnError
    rewrite [hq]
    rfl

/-- Witness for C6: a 429/quota message falls back once and returns the
secondary's answer; a 500 message propagates unmodified with no fallback
call. -/
theorem router_fallback_only_on_quota_witness :
    dlookup [("metadata", PyVal.dict [])] "metadata" = some (.dict [])
    ∧ is_quota_exhausted_429 c6QuotaErr = true
    ∧ (∃ r, LLMRouter_invoke true "gemini-2.5-flash" "HuggingFaceH4/zephyr-7b-beta"
        (.error c6QuotaErr) (.ok "fallback answer") (some [("metadata", PyVal.dict [])])
        = .ok r ∧ r.fallbackCalls = 1 ∧ r.result = .ok "fallback answer")
    ∧ is_quota_exhausted_429 c6ServerErr = false
    ∧ LLMRouter_invoke true "gemini-2.5-flash" "HuggingFaceH4/zephyr-7b-beta"
        (.error c6ServerErr) (.ok "fallback answer") (some [("metadata", PyVal.dict [])])
        = .ok { result := .error c6ServerErr,
                state := some [("metadata", PyVal.dict [])], fallbackCalls := 0 } :=
  ⟨rfl, rfl,
    (router_fallback_only_on_quota "gemini-2.5-flash" "HuggingFaceH4/zephyr-7b-beta"
      c6QuotaErr (.ok "fallback answer") [("metadata", PyVal.dict [])] [] rfl).1 rfl,
    rfl,
    (router_fallback_only_on_quota "gemini-2.5-flash" "HuggingFaceH4/zephyr-7b-beta"
      c6ServerErr (.ok "fallback answer") [("metadata", PyVal.dict [])] [] rfl).2 rfl⟩

/-! ## Theorems: document registration and deduplication (C9) -/

theorem loadDocsAfter_db (db0 : List DocRec) (res : List String × List DocRec) :
    (loadDocsAfter db0 res).db = res.2 := by
  unfold loadDocsAfter
  split
  · rfl
  · rfl

theorem loadDocsPortion_existing (normAbs docIdOf : String → String)
    (defaultIndex : String) (db1 : List DocRec) (p : String)
    (h : (existingPaths normAbs db1).contains (normAbs p) = true) :
    loadDocsPortion normAbs docIdOf defaultIndex db1 [p]
      = { db := db1, workspace_documents := db1,
          uploaded_doc_ids := db1.map (fun r => r.doc_id),
          vector_index_path := listIndexPath db1, uploaded_docs := [] } := by
  show loadDocsAfter db1 (registerStep normAbs docIdOf (existingPaths normAbs db1)
    (pyOrStr (listIndexPath db1) defaultIndex) ([], db1) p) = _
  unfold registerStep
  rewrite [if_pos h]
  rfl

theorem loadDocsPortion_new (normAbs docIdOf : String → String)
    (defaultIndex : String) (db0 : List DocRec) (p : String)
    (h : (existingPaths normAbs db0).contains (normAbs p) = false) :
    loadDocsPortion normAbs docIdOf defaultIndex db0 [p]
      = loadDocsAfter db0 ([p], upsert_document db0 (docIdOf (normAbs p))
          (normAbs p) (pyOrStr (listIndexPath db0) defaultIndex)) := by
  show loadDocsAfter db0 (registerStep normAbs docIdOf (existingPaths normAbs db0)
    (pyOrStr (listIndexPath db0) defaultIndex) ([], db0) p) = _
  unfold registerStep
  rewrite [if_neg (by rewrite [h]; exact Bool.false_ne_true)]
  rfl

theorem mem_existingPaths (normAbs : String → String) (db : List DocRec)
    (r : DocRec) (hr : r ∈ db) (hne : r.file_path ≠ "") :
    normAbs r.file_path ∈ existingPaths normAbs db := by
  unfold existingPaths
  exact List.mem_map_of_mem _ (List.mem_filter.mpr ⟨hr, decide_eq_true hne⟩)

theorem contains_of_mem_str (l : List String) (a : String) (h : a ∈ l) :
    l.contains a = true :=
  List.elem_iff.mpr h

theorem upsert_has_path (db0 : List DocRec) (did path base : String) :
    ∃ r, r ∈ upsert_document db0 did path base ∧ r.file_path = path := by
  unfold upsert_document
  split
  · rename_i hany
    obtain ⟨r, hr, hdid⟩ := List.any_eq_true.mp hany
    refine ⟨{ r with file_path := path, vector_index_path := base }, ?_, rfl⟩
    have hfr : (fun r => if r.doc_id = did then
        { r with file_path := path, vector_index_path := base } else r) r
        = { r with file_path := path, vector_index_path := base } := by
      show (if r.doc_id = did then _ else r) = _
      rewrite [if_pos (of_decide_eq_true hdid)]
      rfl
    rewrite [← hfr]
    exact List.mem_map_of_mem _ hr
  · exact ⟨{ doc_id := did, file_path := path, vector_index_path := base },
      List.mem_append_right _ (List.mem_singleton.mpr rfl), rfl⟩

/-- C9: running the registration portion twice for the same workspace with
the same supplied path registers nothing on the second run: the store is
unchanged and the list of new documents passed onward is empty, for every
store contents, every normalization function that is idempotent and
returns nonempty paths, and every doc-id derivation. -/
theorem load_docs_dedup_second_run (normAbs docIdOf : String → String)
    (defaultIndex : String) (db0 : List DocRec) (p : String)
    (hIdem : normAbs (normAbs p) = normAbs p) (hNe : normAbs p ≠ "") :
    (loadDocsPortion normAbs docIdOf defaultIndex
      (loadDocsPortion normAbs docIdOf defaultIndex db0 [p]).db [p]).uploaded_docs
      = []
    ∧ (loadDocsPortion normAbs docIdOf defaultIndex
        (loadDocsPortion normAbs docIdOf defaultIndex db0 [p]).db [p]).db
      = (loadDocsPortion normAbs docIdOf defaultIndex db0 [p]).db := by
  by_cases hex : (existingPaths normAbs db0).contains (normAbs p) = true
  · have h1 := loadDocsPortion_existing normAbs docIdOf defaultIndex db0 p hex
    have hdb1 : (loadDocsPortion normAbs docIdOf defaultIndex db0 [p]).db = db0 := by
      rewrite [h1]
      rfl
    constructor
    · rewrite [hdb1, h1]
      rfl
    · rewrite [hdb1, h1]
      rfl
  · have hexf : (existingPaths normAbs db0).contains (normAbs p) = false := by
      cases hcc : (existingPaths normAbs db0).contains (normAbs p) with
      | false => rfl
      | true => exact absurd hcc hex
    have h1 := loadDocsPortion_new normAbs docIdOf defaultIndex db0 p hexf
    have hdb1 : (loadDocsPortion normAbs docIdOf defaultIndex db0 [p]).db
        = upsert_document db0 (docIdOf (normAbs p)) (normAbs p)
            (pyOrStr (listIndexPath db0) defaultIndex) := by
      rewrite [h1]
      exact loadDocsAfter_db db0 _
    obtain ⟨r, hrmem, hrpath⟩ := upsert_has_path db0 (docIdOf (normAbs p))
      (normAbs p) (pyOrStr (listIndexPath db0) defaultIndex)
    have hmem2 := mem_existingPaths normAbs _ r hrmem (by rewrite [hrpath]; exact hNe)
    rewrite [hrpath, hIdem] at hmem2
    have h2 := loadDocsPortion_existing normAbs docIdOf defaultIndex
      (upsert_document db0 (docIdOf (normAbs p)) (normAbs p)
        (pyOrStr (listIndexPath db0) defaultIndex)) p
      (contains_of_mem_str _ _ hmem2)
    constructor
    · rewrite [hdb1, h2]
      rfl
    · rewrite [hdb1, h2]
      rfl

/-- Witness for C9: an empty workspace store and the path "/a/doc.txt",
with the identity as the (idempotent) normalizer and id derivation. -/
theorem load_docs_dedup_second_run_witness :
    id (id "/a/doc.txt") = id "/a/doc.txt"
    ∧ id "/a/doc.txt" ≠ ""
    ∧ (loadDocsPortion id id "idx"
        (loadDocsPortion id id "idx" [] ["/a/doc.txt"]).db ["/a/doc.txt"]).uploaded_docs
      = []
    ∧ (loadDocsPortion id id "idx"
        (loadDocsPortion id id "idx" [] ["/a/doc.txt"]).db ["/a/doc.txt"]).db
      = (loadDocsPortion id id "idx" [] ["/a/doc.txt"]).db :=
  ⟨rfl, by decide,
    (load_docs_dedup_second_run id id "idx" [] "/a/doc.txt" rfl (by decide)).1,
    (load_docs_dedup_second_run id id "idx" [] "/a/doc.txt" rfl (by decide)).2⟩

/-! ## Theorems: the idempotent message append (C10) -/

theorem dlookup_pipeline_some (st : Dict) (k : String) (v : PyVal)
    (h1 : k ≠ "tenant_id") (h2 : k ≠ "user_id") (h3 : k ≠ "is_guest")
    (h4 : k ≠ "metadata") (h5 : k ≠ "errors") (h6 : k ≠ "intent")
    (h7 : k ≠ "intent_confidence")
    (hall : normSpecs.all (fun f => (f.key != k) || f.isPlain) = true)
    (h : dlookup st k = some v) :
    dlookup (ensure_intent (ensure_errors (ensure_metadata
      (normalize_state st)))) k = some v := by
  rewrite [dlookup_ensure_intent_other _ k h6 h7,
    dlookup_ensure_errors_other _ k h5, dlookup_ensure_metadata_other _ k h4]
  exact dlookup_normalize_some st k v h1 h2 h3 hall h

theorem dlookup_pipeline_list (st : Dict) (k : String) (xs : List PyVal)
    (h1 : k ≠ "tenant_id") (h2 : k ≠ "user_id") (h3 : k ≠ "is_guest")
    (h4 : k ≠ "metadata") (h5 : k ≠ "errors") (h6 : k ≠ "intent")
    (h7 : k ≠ "intent_confidence")
    (hall : normSpecs.all (fun f => (f.key != k) || !f.isDictFix) = true)
    (h : dlookup st k = some (.list xs)) :
    dlookup (ensure_intent (ensure_errors (ensure_metadata
      (normalize_state st)))) k = some (.list xs) := by
  rewrite [dlookup_ensure_intent_other _ k h6 h7,
    dlookup_ensure_errors_other _ k h5, dlookup_ensure_metadata_other _ k h4]
  exact dlookup_normalize_list st k xs h1 h2 h3 hall h

theorem classifyAppendCore_some (st : Dict) (q : PyVal)
    (hq : dlookup st "user_query" = some q) :
    classifyAppendCore st = caWithQuery st q := by
  unfold classifyAppendCore
  rewrite [hq]
  rfl

theorem caWithQuery_list (st : Dict) (q : PyVal) (ms : List PyVal)
    (hm : dlookup st "messages" = some (.list ms)) :
    caWithQuery st q = caWithMsgs st q ms := by
  unfold caWithQuery
  rewrite [dgetD_of_some st "messages" (.list []) (.list ms) hm]
  rfl

theorem caWithMsgs_true (st : Dict) (q : PyVal) (ms : List PyVal)
    (hb : lastMsgMatches ms q = .ok true) :
    caWithMsgs st q ms = .ok st := by
  unfold caWithMsgs
  rewrite [hb]
  rfl

theorem caWithMsgs_false (st : Dict) (q : PyVal) (ms : List PyVal)
    (hb : lastMsgMatches ms q = .ok false) :
    caWithMsgs st q ms = caDoAppend st q := by
  unfold caWithMsgs
  rewrite [hb]
  rfl

theorem caDoAppend_eval (st : Dict) (q tv turn1 sid : PyVal)
    (hg : dgetD st "conversation_turn" (.int 0) = tv)
    (ha : pyAdd1 tv = some turn1)
    (hsid : dlookup st "session_id" = some sid) :
    caDoAppend st q = .ok (appendMessage (dset st "conversation_turn" turn1)
      (userTurnMsg q turn1 sid)) := by
  unfold caDoAppend
  rewrite [hg, ha, hsid]
  rfl

theorem classify_append_run_true (st : Dict) (q : PyVal) (ms : List PyVal)
    (hq : dlookup st "user_query" = some q)
    (hm : dlookup st "messages" = some (.list ms))
    (hb : lastMsgMatches ms q = .ok true) :
    classifyAppendCore st = .ok st := by
  rewrite [classifyAppendCore_some st q hq, caWithQuery_list st q ms hm,
    caWithMsgs_true st q ms hb]
  rfl

theorem classify_append_run_false_facts (st : Dict) (q : PyVal)
    (ms : List PyVal) (t : ℤ) (sid : PyVal)
    (hq : dlookup st "user_query" = some q)
    (hm : dlookup st "messages" = some (.list ms))
    (hb : lastMsgMatches ms q = .ok false)
    (ht : dlookup st "conversation_turn" = some (.int t))
    (hsid : dlookup st "session_id" = some sid) :
    ∃ st1, classifyAppendCore st = .ok st1
      ∧ dlookup st1 "messages"
          = some (.list (ms ++ [userTurnMsg q (.int (t + 1)) sid]))
      ∧ dlookup st1 "conversation_turn" = some (.int (t + 1))
      ∧ dlookup st1 "user_query" = dlookup st "user_query"
      ∧ dlookup st1 "session_id" = dlookup st "session_id" := by
  refine ⟨dset (dset st "conversation_turn" (.int (t + 1))) "messages"
    (.list (ms ++ [userTurnMsg q (.int (t + 1)) sid])), ?_, ?_, ?_, ?_, ?_⟩
  · rewrite [classifyAppendCore_some st q hq, caWithQuery_list st q ms hm,
      caWithMsgs_false st q ms hb,
      caDoAppend_eval st q (.int t) (.int (t + 1)) sid
        (dgetD_of_some st "conversation_turn" (.int 0) (.int t) ht) rfl hsid,
      appendMessage_eq (dset st "conversation_turn" (.int (t + 1)))
        (userTurnMsg q (.int (t + 1)) sid) ms
        (by rewrite [dlookup_dset_other st "conversation_turn" "messages"
          (.int (t + 1)) (by decide)]; exact hm)]
    rfl
  · exact dlookup_dset_same _ "messages" _
  · rewrite [dlookup_dset_other _ "messages" "conversation_turn" _ (by decide)]
    exact dlookup_dset_same st "conversation_turn" (.int (t + 1))
  · rewrite [dlookup_dset_other _ "messages" "user_query" _ (by decide),
      dlookup_dset_other st "conversation_turn" "user_query" _ (by decide)]
    rfl
  · rewrite [dlookup_dset_other _ "messages" "session_id" _ (by decide),
      dlookup_dset_other st "conversation_turn" "session_id" _ (by decide)]
    rfl

theorem lastMsgMatches_concat_user (ms : List PyVal) (s : String)
    (tv sid : PyVal) :
    lastMsgMatches (ms ++ [userTurnMsg (.str s) tv sid]) (.str s) = .ok true := by
  unfold lastMsgMatches
  rewrite [List.getLast?_append_cons]
  show Except.ok (true && decide (s = s)) = Except.ok true
  rewrite [decide_eq_true (show s = s from rfl)]
  rfl

theorem classify_intent_append_eq (st : Dict) :
    classify_intent_append st = classifyAppendCore
      (ensure_intent (ensure_errors (ensure_metadata (normalize_state st)))) :=
  rfl

theorem except_bind_ok (a : Dict) (f : Dict → Except String Dict) :
    (Except.ok a : Except String Dict).bind f = f a :=
  rfl

theorem caMessages_ok (st : Dict) : caMessages (.ok st) = dlookup st "messages" :=
  rfl

theorem caTurn_ok (st : Dict) :
    caTurn (.ok st) = dlookup st "conversation_turn" :=
  rfl

/-- C10: the classify-intent node's message append is idempotent: when the
last message is already a user message with the current query as content,
nothing is appended and `conversation_turn` is unchanged; otherwise exactly
one user message is appended and `conversation_turn` goes up by one — and
running the node's append phase twice on the same query appends only
once. -/
theorem classify_append_idempotent (st0 : Dict) (s : String) (ms : List PyVal)
    (t : ℤ) (sid : PyVal)
    (hq : dlookup st0 "user_query" = some (.str s))
    (hm : dlookup st0 "messages" = some (.list ms))
    (ht : dlookup st0 "conversation_turn" = some (.int t))
    (hs : dlookup st0 "session_id" = some sid) :
    (lastMsgMatches ms (.str s) = .ok true →
      caMessages (classify_intent_append st0) = some (.list ms)
      ∧ caTurn (classify_intent_append st0) = some (.int t))
    ∧ (lastMsgMatches ms (.str s) = .ok false →
      caMessages (classify_intent_append st0)
        = some (.list (ms ++ [userTurnMsg (.str s) (.int (t + 1)) sid]))
      ∧ caTurn (classify_intent_append st0) = some (.int (t + 1))
      ∧ caMessages ((classify_intent_append st0).bind classify_intent_append)
        = some (.list (ms ++ [userTurnMsg (.str s) (.int (t + 1)) sid]))
      ∧ caTurn ((classify_intent_append st0).bind classify_intent_append)
        = some (.int (t + 1))) := by
  have hqE := dlookup_pipeline_some st0 "user_query" (.str s) (by decide)
    (by decide) (by decide) (by decide) (by decide) (by decide) (by decide)
    (by decide) hq
  have hmE := dlookup_pipeline_list st0 "messages" ms (by decide) (by decide)
    (by decide) (by decide) (by decide) (by decide) (by decide) (by decide) hm
  have htE := dlookup_pipeline_some st0 "conversation_turn" (.int t) (by decide)
    (by decide) (by decide) (by decide) (by decide) (by decide) (by decide)
    (by decide) ht
  have hsE := dlookup_pipeline_some st0 "session_id" sid (by decide) (by decide)
    (by decide) (by decide) (by decide) (by decide) (by decide) (by decide) hs
  constructor
  · intro hb
    constructor
    · rewrite [classify_intent_append_eq st0,
        classify_append_run_true _ _ _ hqE hmE hb, caMessages_ok]
      exact hmE
    · rewrite [classify_intent_append_eq st0,
        classify_append_run_true _ _ _ hqE hmE hb, caTurn_ok]
      exact htE
  · intro hb
    obtain ⟨st1, h1, h1m, h1t, h1q, h1s⟩ :=
      classify_append_run_false_facts _ _ _ t _ hqE hmE hb htE hsE
    have hqE2 := dlookup_pipeline_some st1 "user_query" (.str s) (by decide)
      (by decide) (by decide) (by decide) (by decide) (by decide) (by decide)
      (by decide) (h1q.trans hqE)
    have hmE2 := dlookup_pipeline_list st1 "messages"
      (ms ++ [userTurnMsg (.str s) (.int (t + 1)) sid]) (by decide) (by decide)
      (by decide) (by decide) (by decide) (by decide) (by decide) (by decide) h1m
    have htE2 := dlookup_pipeline_some st1 "conversation_turn" (.int (t + 1))
      (by decide) (by decide) (by decide) (by decide) (by decide) (by decide)
      (by decide) (by decide) h1t
    have hb2 := lastMsgMatches_concat_user ms s (.int (t + 1)) sid
    refine ⟨?_, ?_, ?_, ?_⟩
    · rewrite [classify_intent_append_eq st0, h1, caMessages_ok]
      exact h1m
    · rewrite [classify_intent_append_eq st0, h1, caTurn_ok]
      exact h1t
    · rewrite [classify_intent_append_eq st0, h1, except_bind_ok,
        classify_intent_append_eq st1,
        classify_append_run_true _ _ _ hqE2 hmE2 hb2, caMessages_ok]
      exact hmE2
    · rewrite [classify_intent_append_eq st0, h1, except_bind_ok,
        classify_intent_append_eq st1,
        classify_append_run_true _ _ _ hqE2 hmE2 hb2, caTurn_ok]
      exact htE2

/-- Witness for C10 at a fresh session: empty message list, turn 0; one run
appends the single user message and sets the turn to 1, and a second run on
the result appends nothing. -/
theorem classify_append_idempotent_witness :
    lastMsgMatches [] (.str "hello") = .ok false
    ∧ (caMessages (classify_intent_append c10State)
        = some (.list ([] ++ [userTurnMsg (.str "hello") (.int (0 + 1))
            (.str "sess1")]))
      ∧ caTurn (classify_intent_append c10State) = some (.int (0 + 1))
      ∧ caMessages ((classify_intent_append c10State).bind classify_intent_append)
        = some (.list ([] ++ [userTurnMsg (.str "hello") (.int (0 + 1))
            (.str "sess1")]))
      ∧ caTurn ((classify_intent_append c10State).bind classify_intent_append)
        = some (.int (0 + 1))) :=
  ⟨rfl, (classify_append_idempotent c10State "hello" [] 0 (.str "sess1")
    rfl rfl rfl rfl).2 rfl⟩

/-! ## Theorems: the intent classifier (C2) -/

theorem dlookup_setMetaKey_other (st : Dict) (k : String) (v : PyVal)
    (k' : String) (h : k' ≠ "metadata") :
    dlookup (setMetaKey st k v) k' = dlookup st k' := by
  unfold setMetaKey
  split
  · exact dlookup_dset_other st "metadata" k' _ h
  · rfl

theorem setIntentConf_intent (st : Dict) (lbl cv r : PyVal) :
    dlookup (setIntentConf st lbl cv r) "intent" = some lbl := by
  unfold setIntentConf
  rewrite [dlookup_setMetaKey_other _ "intent_reasoning" r "intent" (by decide),
    dlookup_dset_other _ "intent_confidence" "intent" cv (by decide)]
  exact dlookup_dset_same st "intent" lbl

theorem setIntentConf_conf (st : Dict) (lbl cv r : PyVal) :
    dlookup (setIntentConf st lbl cv r) "intent_confidence" = some cv := by
  unfold setIntentConf
  rewrite [dlookup_setMetaKey_other _ "intent_reasoning" r "intent_confidence"
    (by decide)]
  exact dlookup_dset_same (dset st "intent" lbl) "intent_confidence" cv

theorem classifyGood_unknown (st : Dict) (r : PyVal) :
    ClassifyGood (.ok (setIntentConf st (.str "unknown") (.rat 0) r)) :=
  ⟨setIntentConf st (.str "unknown") (.rat 0) r, "unknown", 0, rfl,
    setIntentConf_intent st (.str "unknown") (.rat 0) r, by decide,
    setIntentConf_conf st (.str "unknown") (.rat 0) r, le_refl 0, by norm_num⟩

theorem dlookup_ensures_other (st : Dict) (k : String)
    (h4 : k ≠ "metadata") (h5 : k ≠ "errors") (h6 : k ≠ "intent")
    (h7 : k ≠ "intent_confidence") :
    dlookup (ensure_intent (ensure_errors (ensure_metadata st))) k
      = dlookup st k := by
  rewrite [dlookup_ensure_intent_other _ k h6 h7,
    dlookup_ensure_errors_other _ k h5]
  exact dlookup_ensure_metadata_other st k h4

theorem dgetD_ensures_other (st : Dict) (k : String) (dflt : PyVal)
    (h4 : k ≠ "metadata") (h5 : k ≠ "errors") (h6 : k ≠ "intent")
    (h7 : k ≠ "intent_confidence") :
    dgetD (ensure_intent (ensure_errors (ensure_metadata st))) k dflt
      = dgetD st k dflt := by
  unfold dgetD
  rewrite [dlookup_ensures_other st k h4 h5 h6 h7]
  rfl

theorem classifyDocsCheck_thru (env : ClassifyEnv) (st : Dict)
    (hu : (pyLen (dgetD st "uploaded_docs" (.list []))).isSome = true)
    (hw : (pyLen (dgetD st "workspace_documents" (.list []))).isSome = true) :
    classifyDocsCheck env st = classifyQuery env st := by
  obtain ⟨nu, hnu⟩ := Option.isSome_iff_exists.mp hu
  obtain ⟨nw, hnw⟩ := Option.isSome_iff_exists.mp hw
  unfold classifyDocsCheck
  rewrite [hnu, hnw]
  split
  · rfl
  · rfl

theorem classifyQuery_go (env : ClassifyEnv) (st : Dict)
    (hq : truthy (dgetD st "user_query" (.str "")) = true) :
    classifyQuery env st = classifyFmt env st := by
  unfold classifyQuery
  rewrite [if_pos hq]
  rfl

theorem classifyQuery_empty (env : ClassifyEnv) (st : Dict)
    (hq : truthy (dgetD st "user_query" (.str "")) = false) :
    classifyQuery env st
      = .ok (setIntentConf st (.str "unknown") (.rat 0) (.str "Empty query")) := by
  unfold classifyQuery
  rewrite [hq]
  rfl

theorem classifyFmt_none (env : ClassifyEnv) (st : Dict)
    (h : env.fmtErr = Option.none) :
    classifyFmt env st = classifyInvoke env st := by
  unfold classifyFmt
  rewrite [h]
  rfl

theorem classifyFmt_some (env : ClassifyEnv) (st : Dict) (e : String)
    (h : env.fmtErr = some e) :
    classifyFmt env st = .ok (setIntentConf
      (appendError st ("Prompt formatting error: " ++ e)) (.str "unknown")
      (.rat 0) (.str ("Prompt formatting failed: " ++ e))) := by
  unfold classifyFmt
  rewrite [h]
  rfl

theorem classifyInvoke_error (env : ClassifyEnv) (st : Dict) (e : String)
    (h : env.invoke = .error e) :
    classifyInvoke env st = .ok (setIntentConf
      (appendError st ("LLM invocation error: " ++ e)) (.str "unknown")
      (.rat 0) (.str ("LLM invocation failed: " ++ e))) := by
  unfold classifyInvoke
  rewrite [h]
  rfl

theorem classifyInvoke_ok (env : ClassifyEnv) (st : Dict) (resp : RouterResp)
    (h : env.invoke = .ok resp) :
    classifyInvoke env st = classifyText env (resp.upd st) resp.contentAttr := by
  unfold classifyInvoke
  rewrite [h]
  rfl

theorem classifyText_str (env : ClassifyEnv) (st : Dict) (text : String) :
    classifyText env st (some (.str text)) = classifyParse env st text :=
  rfl

theorem classifyParse_err (env : ClassifyEnv) (st : Dict) (text e : String)
    (h : env.parse text = .error e) :
    classifyParse env st text = .ok (setIntentConf st (.str "unknown") (.rat 0)
      (.str ("Invalid JSON from intent classifier: " ++ e))) := by
  unfold classifyParse
  rewrite [h]
  rfl

theorem classifyParse_obj (env : ClassifyEnv) (st : Dict) (text : String)
    (pd : Dict) (h : env.parse text = .ok (.dict pd)) :
    classifyParse env st text = .ok (classifyFromParsed env st pd) := by
  unfold classifyParse
  rewrite [h]
  rfl

theorem classifyFromParsed_valid (env : ClassifyEnv) (st : Dict) (pd : Dict)
    (hv : validIntentVal (intentOrUnknown (dgetD pd "intent" PyVal.none)) = true) :
    classifyFromParsed env st pd
      = setIntentConf st (intentOrUnknown (dgetD pd "intent" PyVal.none))
          (.rat (confFrom env pd))
          (.str (pyStr (dgetD pd "reasoning" (.str "")))) := by
  unfold classifyFromParsed
  rewrite [if_pos hv]
  rfl

theorem classifyFromParsed_invalid (env : ClassifyEnv) (st : Dict) (pd : Dict)
    (hv : validIntentVal (intentOrUnknown (dgetD pd "intent" PyVal.none)) = false) :
    classifyFromParsed env st pd
      = setIntentConf st (.str "unknown") (.rat 0)
          (.str (pyStr (dgetD pd "reasoning" (.str "")))) := by
  unfold classifyFromParsed
  rewrite [hv]
  rfl

theorem validIntentVal_elim (v : PyVal) (h : validIntentVal v = true) :
    ∃ s, v = .str s ∧ validIntents.contains s = true := by
  cases v with
  | str s => exact ⟨s, rfl, h⟩
  | none => exact Bool.noConfusion h
  | bool b => exact Bool.noConfusion h
  | int n => exact Bool.noConfusion h
  | rat q => exact Bool.noConfusion h
  | list xs => exact Bool.noConfusion h
  | dict kvs => exact Bool.noConfusion h

/-- C2 (amended): classify never raises and always returns a state whose
intent is a non-null string of the closed set, with a float confidence in
[0, 1] — provided the two document fields support `len()` when truthy and
that every successful parse yields a JSON object whose coerced confidence
lies in [0, 1].  (The counterexample shows both provisos are needed: an
out-of-range confidence is stored unclamped, and a valid non-object JSON
response makes classify raise.) -/
theorem classify_total_valid (env : ClassifyEnv) (st0 : Dict)
    (hu : (pyLen (dgetD st0 "uploaded_docs" (.list []))).isSome = true)
    (hw : (pyLen (dgetD st0 "workspace_documents" (.list []))).isSome = true)
    (hparse : ∀ text v, env.parse text = .ok v →
      ∃ pd, v = .dict pd ∧ 0 ≤ confFrom env pd ∧ confFrom env pd ≤ 1) :
    ClassifyGood (classify env st0) := by
  have hu2 : (pyLen (dgetD (ensure_intent (ensure_errors (ensure_metadata st0)))
      "uploaded_docs" (.list []))).isSome = true := by
    rewrite [dgetD_ensures_other st0 "uploaded_docs" (.list []) (by decide)
      (by decide) (by decide) (by decide)]
    exact hu
  have hw2 : (pyLen (dgetD (ensure_intent (ensure_errors (ensure_metadata st0)))
      "workspace_documents" (.list []))).isSome = true := by
    rewrite [dgetD_ensures_other st0 "workspace_documents" (.list []) (by decide)
      (by decide) (by decide) (by decide)]
    exact hw
  show ClassifyGood (classifyDocsCheck env
    (ensure_intent (ensure_errors (ensure_metadata st0))))
  rewrite [classifyDocsCheck_thru env _ hu2 hw2]
  cases hq : truthy (dgetD (ensure_intent (ensure_errors (ensure_metadata st0)))
      "user_query" (.str "")) with
  | false =>
    rewrite [classifyQuery_empty env _ hq]
    exact classifyGood_unknown _ _
  | true =>
    rewrite [classifyQuery_go env _ hq]
    cases hf : env.fmtErr with
    | some e =>
      rewrite [classifyFmt_some env _ e hf]
      exact classifyGood_unknown _ _
    | none =>
      rewrite [classifyFmt_none env _ hf]
      cases hi : env.invoke with
      | error e =>
        rewrite [classifyInvoke_error env _ e hi]
        exact classifyGood_unknown _ _
      | ok resp =>
        rewrite [classifyInvoke_ok env _ resp hi]
        cases hca : resp.contentAttr with
        | none =>
          exact classifyGood_unknown _ _
        | some v =>
          cases v with
          | str text =>
            rewrite [classifyText_str]
            cases hp : env.parse text with
            | error e =>
              rewrite [classifyParse_err env _ text e hp]
              exact classifyGood_unknown _ _
            | ok pv =>
              obtain ⟨pd, hpd, hc0, hc1⟩ := hparse text pv hp
              rewrite [hpd] at hp
              rewrite [classifyParse_obj env _ text pd hp]
              cases hv : validIntentVal (intentOrUnknown
                  (dgetD pd "intent" PyVal.none)) with
              | true =>
                obtain ⟨s, hs, hmem⟩ := validIntentVal_elim _ hv
                rewrite [classifyFromParsed_valid env _ pd hv, hs]
                exact ⟨_, s, confFrom env pd, rfl,
                  setIntentConf_intent _ _ _ _, hmem,
                  setIntentConf_conf _ _ _ _, hc0, hc1⟩
              | false =>
                rewrite [classifyFromParsed_invalid env _ pd hv]
                exact classifyGood_unknown _ _
          | none => exact classifyGood_unknown _ _
          | bool b => exact classifyGood_unknown _ _
          | int n => exact classifyGood_unknown _ _
          | rat q => exact classifyGood_unknown _ _
          | list xs => exact classifyGood_unknown _ _
          | dict kvs => exact classifyGood_unknown _ _

/-- Witness for C2 (amended): the benign environment answering
`{"intent": "rag", "confidence": 0.9, ...}` on a plain query state. -/
theorem classify_total_valid_witness : ClassifyGood (classify c2Env c2State) :=
  classify_total_valid c2Env c2State rfl rfl
    (fun text v h => by
      have h2 : Except.ok (PyVal.dict c2Parsed) = Except.ok v := h
      injection h2 with h3
      exact ⟨c2Parsed, h3.symm,
        by show (0 : ℚ) ≤ 9 / 10; norm_num,
        by show (9 / 10 : ℚ) ≤ 1; norm_num⟩)

/-- Counterexample for C2 as written: a valid label with confidence 2.5
passes validation and is stored unclamped (violating confidence ∈ [0, 1]),
and a valid non-object JSON response (`[]`) makes classify raise an
AttributeError (violating "never raises"). -/
theorem classify_unclamped_or_raises_cex :
    intentOf (classify c2BadConfEnv c2State) = some (.str "rag")
    ∧ confOf (classify c2BadConfEnv c2State) = some (.rat (5 / 2))
    ∧ ¬ ((5 / 2 : ℚ) ≤ 1)
    ∧ classify c2ListEnv c2State
        = .error "AttributeError: object has no attribute get" :=
  ⟨rfl, rfl, by norm_num, rfl⟩

end Nexus
